import Mathlib

/-!
Shallow embedding of the go-box repository (a Go client for the Box 2.0
REST API) and proofs about it.

Modelling conventions, used throughout:

* Go errors are modelled as `String` (the message passed to `errors.New`
  or produced by the library); `error` return values become
  `Except GoError _` or `Option GoError`.
* JSON documents are modelled by the inductive `Json`.  An RFC3339
  timestamp string (the only shape `time.Time.Format time.RFC3339`
  produces and `time.ParseInLocation time.RFC3339` accepts) is modelled
  by the dedicated constructor `Json.timeStr secs`: Go's formatter and
  parser are mutually inverse bijections between instants at
  whole-second precision and these strings, so the string is represented
  by the instant it denotes.  `Json.str` covers all other JSON strings
  (which fail RFC3339 parsing).
* `time.Time` is modelled by `GoTime`: Unix seconds plus the sub-second
  nanosecond component.  `time.Time.Format time.RFC3339` emits only the
  whole-second part, which is the fact the round-trip proofs turn on.
* Go `nil`-able pointers become `Option`, slices become `List` (the Go
  distinction between a nil slice and an empty slice is collapsed),
  `int` becomes `Int`.
* The effects of `http.NewRequest` / `client.Do` / `ioutil.ReadAll` are
  environment-controlled oracles (`HttpEnv`), and each operation returns
  the list of requests it handed to `Client.Do` as its trace.
-/

/-- Go `error` values, identified by their message. -/
abbrev GoError := String

/-- A JSON document (`encoding/json` value space as used by this
library).  `timeStr secs` stands for the RFC3339 string denoting the
instant `secs` (Unix seconds); see the module docstring. -/
inductive Json where
  | null
  | bool (b : Bool)
  | num (n : Int)
  | str (s : String)
  | timeStr (secs : Int)
  | arr (elems : List Json)
  | obj (fields : List (String × Json))

/-- Go `time.Time`: Unix seconds together with the sub-second
nanosecond component of the instant. -/
structure GoTime where
  secs : Int
  nanos : Nat
deriving Repr, DecidableEq

/-- The zero `time.Time{}` (January 1, year 1, 00:00:00 UTC) as Unix
seconds. -/
def goZeroTime : GoTime := { secs := -62135596800, nanos := 0 }

/-! ## error.go -/

/-- `error.go`: `BoxError` with a status code and a message. -/
structure BoxError where
  StatusCode : Int
  Message : String
deriving Repr, DecidableEq

/-- `error.go`: `SUCCESS`. -/
def SUCCESS : BoxError := { StatusCode := 200, Message := "Success" }

/-- `error.go`: `CREATED`. -/
def CREATED : BoxError := { StatusCode := 201, Message := "Created" }

/-- `error.go`: `ACCEPTED`. -/
def ACCEPTED : BoxError := { StatusCode := 202, Message := "Accepted" }

/-- `error.go`: `NO_CONTENT`. -/
def NO_CONTENT : BoxError := { StatusCode := 204, Message := "No Content" }

/-- `error.go`: `REDIRECT`. -/
def REDIRECT : BoxError := { StatusCode := 302, Message := "Redirect" }

/-- `error.go`: `NOT_MODIFIED`. -/
def NOT_MODIFIED : BoxError := { StatusCode := 304, Message := "Not Modified" }

/-- `error.go`: `UNAUTHORIZED`. -/
def UNAUTHORIZED : BoxError := { StatusCode := 401, Message := "Unauthorized" }

/-- `error.go`: `FORBIDDEN`. -/
def FORBIDDEN : BoxError := { StatusCode := 403, Message := "Forbidden" }

/-- `error.go`: `NOT_FOUND`. -/
def NOT_FOUND : BoxError := { StatusCode := 404, Message := "Not found" }

/-- `error.go`: `NOT_ALLOWED`. -/
def NOT_ALLOWED : BoxError := { StatusCode := 405, Message := "Not allowed" }

/-- `error.go`: `CONFLICT`. -/
def CONFLICT : BoxError := { StatusCode := 409, Message := "Conflict" }

/-- `error.go`: `PRECONDITION_FAILED`. -/
def PRECONDITION_FAILED : BoxError := { StatusCode := 412, Message := "Precondition failed" }

/-- `error.go`: `TOO_MANY_REQUESTS`. -/
def TOO_MANY_REQUESTS : BoxError := { StatusCode := 429, Message := "Too many requests" }

/-- `error.go`: `SERVER_ERROR`. -/
def SERVER_ERROR : BoxError := { StatusCode := 500, Message := "Internal server error" }

/-- `error.go`: `UNAVAILABLE`. -/
def UNAVAILABLE : BoxError := { StatusCode := 503, Message := "Unavailable" }

/-- `error.go` `toError`: the `switch status` translated as the
corresponding chain of equality tests. -/
def toError (status : Int) : BoxError :=
  if status = 200 then SUCCESS
  else if status = 201 then CREATED
  else if status = 202 then ACCEPTED
  else if status = 204 then NO_CONTENT
  else if status = 302 then REDIRECT
  else if status = 304 then NOT_MODIFIED
  else if status = 401 then UNAUTHORIZED
  else if status = 403 then FORBIDDEN
  else if status = 404 then NOT_FOUND
  else if status = 405 then NOT_ALLOWED
  else if status = 409 then CONFLICT
  else if status = 412 then PRECONDITION_FAILED
  else if status = 429 then TOO_MANY_REQUESTS
  else if status = 500 then SERVER_ERROR
  else if status = 503 then UNAVAILABLE
  else { StatusCode := status, Message := "Unknown error" }

/-! ## URL encoding (net/url as used by box.go) -/

/-- UTF-8 encoding of a character, as the list of its bytes (each
`< 256`).  Go strings are byte strings; `url.QueryEscape` walks them
byte by byte. -/
def utf8Bytes (c : Char) : List Nat :=
  let n := c.toNat
  if n < 0x80 then [n]
  else if n < 0x800 then
    [0xC0 + n / 0x40, 0x80 + n % 0x40]
  else if n < 0x10000 then
    [0xE0 + n / 0x1000, 0x80 + n / 0x40 % 0x40, 0x80 + n % 0x40]
  else
    [0xF0 + n / 0x40000, 0x80 + n / 0x1000 % 0x40, 0x80 + n / 0x40 % 0x40, 0x80 + n % 0x40]

/-- Upper-case hexadecimal digit, as used by Go's percent-encoding. -/
def hexDigitUpper (n : Nat) : Char :=
  if n < 10 then Char.ofNat (48 + n) else Char.ofNat (55 + n)

/-- `net/url` `shouldEscape` for the query component: a byte is kept
as-is exactly when it is an ASCII letter, a digit, or one of
`-` `_` `.` `~`. -/
def queryUnreserved (b : Nat) : Bool :=
  (65 ≤ b && b ≤ 90) || (97 ≤ b && b ≤ 122) || (48 ≤ b && b ≤ 57) ||
    b = 45 || b = 95 || b = 46 || b = 126

/-- How `url.QueryEscape` renders one byte: unreserved bytes verbatim,
space as `+`, every other byte as `%XX` with upper-case hex. -/
def escapeByte (b : Nat) : List Char :=
  if queryUnreserved b then [Char.ofNat b]
  else if b = 32 then ['+']
  else ['%', hexDigitUpper (b / 16), hexDigitUpper (b % 16)]

/-- `net/url` `QueryEscape`: percent-encode every byte of the string
that is not unreserved, encoding space as `+`. -/
def queryEscape (s : String) : String :=
  String.mk ((s.data.flatMap utf8Bytes).flatMap escapeByte)

/-- `box.go` `urlEncode`: `url.QueryEscape(s)`. -/
def urlEncode (s : String) : String :=
  queryEscape s

/-- Insert a string into a sorted list of strings (ascending). -/
def insertSortedString (s : String) : List String → List String
  | [] => [s]
  | x :: xs => if s ≤ x then s :: x :: xs else x :: insertSortedString s xs

/-- Sort a list of strings ascending (`sort.Strings`). -/
def sortStrings (l : List String) : List String :=
  l.foldr insertSortedString []

/-- `net/url` `Values`: a map from keys to lists of values.  The list
of pairs is assumed key-unique, as every Go `url.Values` map is. -/
structure Values where
  pairs : List (String × List String)

/-- `net/url` `Values.Encode`: keys sorted, each value rendered as
`QueryEscape(k)=QueryEscape(v)`, pairs joined with `&`. -/
def Values.encode (v : Values) : String :=
  let keys := sortStrings (v.pairs.map Prod.fst)
  let parts := keys.flatMap fun k =>
    (((v.pairs.find? (fun p => p.1 = k)).map Prod.snd).getD []).map fun w =>
      queryEscape k ++ "=" ++ queryEscape w
  String.intercalate "&" parts

/-! ## box.go: client, getResponse, doRequest -/

/-- `oauth2.Token` (the fields this library touches). -/
structure Token where
  AccessToken : String
  TokenType : String
deriving Repr, DecidableEq

/-- `box.go` `Box`: the client object.  The `config` field only feeds
the OAuth transport; `token` is modelled directly (a nil token pointer
is out of scope, it would panic in Go). -/
structure Box where
  APIURL : String
  UPLOADURL : String
  token : Token
deriving Repr, DecidableEq

/-- `box.go` `NewBox`: the two Box endpoints; the token starts unset. -/
def NewBox : Box :=
  { APIURL := "https://api.box.com/2.0"
    UPLOADURL := "https://upload.box.com/api/2.0"
    token := { AccessToken := "", TokenType := "" } }

/-- The `http.Client` built by `Box.client`: an OAuth2 transport on
which `SetToken(box.token)` was called. -/
structure Client where
  token : Token
deriving Repr, DecidableEq

/-- `box.go` `Box.client`: `config.NewTransport()` followed by
`t.SetToken(box.token)`, wrapped in an `http.Client`. -/
def Box.client (box : Box) : Client :=
  { token := box.token }

/-- The multipart form body `UploadFile` builds: the form file part
(name `filename`, file name `filepath.Base(path)`, the copied file
bytes) and the `parent_id` / `content_modified_at` fields.  The
`content_modified_at` field holds the raw `BoxTime.MarshalJSON`
bytes. -/
structure MultipartBody where
  filename : String
  contents : String
  parentId : String
  contentModifiedAt : Json

/-- The body attached to an outgoing `http.Request`: none (`nil`
reader), marshalled JSON bytes, or a multipart form. -/
inductive RequestBody where
  | empty
  | jsonStr (j : Json)
  | multipart (m : MultipartBody)

/-- An `http.Request` as this library builds them. -/
structure Request where
  method : String
  url : String
  body : RequestBody

/-- An `http.Response` as far as this library reads it: the status code
and the outcome of `ioutil.ReadAll(r.Body)` (reading the body can fail
independently of the status). `B` is the type modelling the body
bytes. -/
structure Response (B : Type) where
  statusCode : Int
  bodyRead : Except GoError B

/-- `box.go` `getResponse`: read the body, then accept exactly
`http.StatusOK`, `http.StatusCreated`, `http.StatusAccepted`
(200, 201, 202); anything else is
`errors.New(fmt.Sprintf("unexpected HTTP status code %d", …))`. -/
def getResponse {B : Type} (r : Response B) : Except GoError B :=
  match r.bodyRead with
  | .error e => .error e
  | .ok b =>
    if r.statusCode = 200 ∨ r.statusCode = 201 ∨ r.statusCode = 202 then .ok b
    else .error ("unexpected HTTP status code " ++ toString r.statusCode)

/-- Environment oracle for one HTTP exchange: whether
`http.NewRequest` fails, and what `client.Do` returns if a request is
sent. -/
structure HttpEnv (B : Type) where
  reqErr : Option GoError
  sendResult : Except GoError (Response B)

/-- `box.go` lines 90-94: the raw URL `doRequest` builds —
`fmt.Sprintf("%s/%s", box.APIURL, urlEncode(path))`, with
`?` and the encoded parameters appended exactly when `params` is
non-nil. -/
def Box.rawURL (box : Box) (path : String) (params : Option Values) : String :=
  match params with
  | none => box.APIURL ++ "/" ++ urlEncode path
  | some p => box.APIURL ++ "/" ++ urlEncode path ++ "?" ++ p.encode

/-- What a run of `doRequest` did: the requests handed to
`Client.Do` (paired with the client they were sent through), and the
returned `([]byte, error)` — `.error e` stands for Go's `(nil, e)`,
`.ok b` for `(b, nil)`. -/
structure DoRequestRun (B : Type) where
  sent : List (Client × Request)
  result : Except GoError B

/-- The request-body reader `doRequest` makes: `reqBody` is
`Option Json`, `none` standing for the empty string / nil reader —
the callers pass either no body or marshalled JSON, which is never
the empty string. -/
def reqBodyOf (reqBody : Option Json) : RequestBody :=
  match reqBody with
  | none => .empty
  | some j => .jsonStr j

/-- `box.go` `doRequest`: build the raw URL, make the request body
reader, create the request, send it once through `box.client()`, and
pass the response through `getResponse`.  Each failure is returned
as-is with a nil byte slice. -/
def Box.doRequest {B : Type} (box : Box) (env : HttpEnv B) (method path : String)
    (params : Option Values) (reqBody : Option Json) : DoRequestRun B :=
  let rawurl := box.rawURL path params
  let body : RequestBody := reqBodyOf reqBody
  match env.reqErr with
  | some e => { sent := [], result := .error e }
  | none =>
    let request : Request := { method := method, url := rawurl, body := body }
    match env.sendResult with
    | .error e => { sent := [(box.client, request)], result := .error e }
    | .ok response =>
      match getResponse response with
      | .error e => { sent := [(box.client, request)], result := .error e }
      | .ok b => { sent := [(box.client, request)], result := .ok b }

/-! ## encoding/json: marshalling with `omitempty`, unmarshalling -/

/-- Drop the omitted (`none`) fields of a marshalled object. -/
def omitNone (l : List (String × Option Json)) : List (String × Json) :=
  l.filterMap fun p => p.2.map fun j => (p.1, j)

/-- Marshal a `string` field tagged `omitempty`. -/
def encStr (v : String) : Option Json :=
  if v = "" then none else some (.str v)

/-- Marshal an `int` field tagged `omitempty`. -/
def encInt (v : Int) : Option Json :=
  if v = 0 then none else some (.num v)

/-- Marshal a `bool` field tagged `omitempty`. -/
def encBool (v : Bool) : Option Json :=
  if v = false then none else some (.bool v)

/-- Marshal a pointer-to-struct field tagged `omitempty`: a nil
pointer is omitted, otherwise the pointee is marshalled. -/
def encObjOpt {α : Type} (enc : α → Json) (o : Option α) : Option Json :=
  o.map enc

/-- Marshal a slice field tagged `omitempty`: an empty slice is
omitted. -/
def encList {α : Type} (enc : α → Json) (xs : List α) : Option Json :=
  if xs.isEmpty then none else some (.arr (xs.map enc))

/-- `entity.go` `BoxTime.MarshalJSON`:
`json.Marshal(time.Time(bt).Format(time.RFC3339))` — the RFC3339
string of the instant, which carries its whole-second part only. -/
def BoxTime.marshalJSON (bt : GoTime) : Json :=
  .timeStr bt.secs

/-- Marshal a `*BoxTime` field tagged `omitempty`. -/
def encTimeOpt (o : Option GoTime) : Option Json :=
  o.map BoxTime.marshalJSON

/-- `entity.go` `BoxTime.UnmarshalJSON`.  `data` is the raw JSON
value handed to the method, `none` standing for a nil byte slice; nil
and the literal `null` return with the receiver untouched.  Otherwise
the value must be a JSON string that parses under RFC3339 (i.e. a
`timeStr`); the parsed time has no sub-second part.  The Go code
normalises a parsed zero time to `time.Time{}` (the two branches
assign the same instant). -/
def BoxTime.unmarshalJSON (bt : GoTime) (data : Option Json) : Except GoError GoTime :=
  match data with
  | none => .ok bt
  | some .null => .ok bt
  | some (.timeStr secs) =>
    let t : GoTime := { secs := secs, nanos := 0 }
    if t = goZeroTime then .ok { secs := goZeroTime.secs, nanos := 0 } else .ok t
  | some (.str _) => .error "parsing time: cannot parse as RFC3339"
  | some _ => .error "json: cannot unmarshal into string"

/-- Unmarshal a JSON value into a `string` destination holding `old`
(`null` leaves the destination unchanged). -/
def decStrJ (old : String) : Json → Except GoError String
  | .str s => .ok s
  | .null => .ok old
  | _ => .error "json: cannot unmarshal into field of type string"

/-- Unmarshal a JSON value into an `int` destination holding `old`. -/
def decIntJ (old : Int) : Json → Except GoError Int
  | .num n => .ok n
  | .null => .ok old
  | _ => .error "json: cannot unmarshal into field of type int"

/-- Unmarshal a JSON value into a `bool` destination holding `old`. -/
def decBoolJ (old : Bool) : Json → Except GoError Bool
  | .bool b => .ok b
  | .null => .ok old
  | _ => .error "json: cannot unmarshal into field of type bool"

/-- Unmarshal one object field: an absent key leaves the destination
unchanged. -/
def decField {α : Type} (old : α) (decJ : α → Json → Except GoError α) :
    Option Json → Except GoError α
  | none => .ok old
  | some j => decJ old j

/-- Unmarshal one pointer-to-struct field: absent key leaves the
pointer unchanged, `null` sets it to nil, a value is unmarshalled into
the existing pointee (allocated zero if the pointer was nil). -/
def decObjOpt {α : Type} (old : Option α) (zero : α)
    (dec : α → Json → Except GoError α) : Option Json → Except GoError (Option α)
  | none => .ok old
  | some .null => .ok none
  | some j => (dec (old.getD zero) j).map some

/-- Unmarshal one `*BoxTime` field (via `BoxTime.UnmarshalJSON`). -/
def decTimeOpt (old : Option GoTime) : Option Json → Except GoError (Option GoTime)
  | none => .ok old
  | some .null => .ok none
  | some j => (BoxTime.unmarshalJSON (old.getD goZeroTime) (some j)).map some

/-- Decode the elements of a JSON array one by one, each into a fresh
zero destination, stopping at the first failure. -/
def decElems {α : Type} (zero : α) (dec : α → Json → Except GoError α) :
    List Json → Except GoError (List α)
  | [] => .ok []
  | j :: js => do
    let a ← dec zero j
    let rest ← decElems zero dec js
    pure (a :: rest)

/-- Unmarshal one slice field: absent key leaves the slice unchanged,
`null` sets it to nil, an array is decoded element-wise into fresh
zero elements. -/
def decList {α : Type} (old : List α) (zero : α)
    (dec : α → Json → Except GoError α) : Option Json → Except GoError (List α)
  | none => .ok old
  | some .null => .ok []
  | some (.arr js) => decElems zero dec js
  | some _ => .error "json: cannot unmarshal into field of type slice"

/-! ## entity.go: Entity, Permission, Collection, BoxLock, SharedObject -/

/-- `entity.go` `Entity`: mini folder / mini file.  The Go field
`Type` is spelled `Type'` because `Type` is reserved in Lean. -/
structure Entity where
  SequenceId : String
  Name : String
  Id : String
  ETag : String
  Type' : String
deriving Repr, DecidableEq

/-- The Go zero `Entity`. -/
def Entity.zero : Entity :=
  { SequenceId := "", Name := "", Id := "", ETag := "", Type' := "" }

/-- `json.Marshal` on `Entity` (all fields `omitempty`). -/
def Entity.marshalJSON (e : Entity) : Json :=
  .obj (omitNone
    [("sequence_id", encStr e.SequenceId),
     ("name", encStr e.Name),
     ("id", encStr e.Id),
     ("etag", encStr e.ETag),
     ("type", encStr e.Type')])

/-- `json.Unmarshal` of a JSON value into an existing `Entity`. -/
def Entity.unmarshalInto (old : Entity) : Json → Except GoError Entity
  | .null => .ok old
  | .obj fs => do
    let sid ← decField old.SequenceId decStrJ (fs.lookup "sequence_id")
    let name ← decField old.Name decStrJ (fs.lookup "name")
    let id ← decField old.Id decStrJ (fs.lookup "id")
    let etag ← decField old.ETag decStrJ (fs.lookup "etag")
    let ty ← decField old.Type' decStrJ (fs.lookup "type")
    pure { SequenceId := sid, Name := name, Id := id, ETag := etag, Type' := ty }
  | _ => .error "json: cannot unmarshal into Entity"

/-- `entity.go` `Permission`. -/
structure Permission where
  Download : Bool
  Preview : Bool
  Upload : Bool
  Comment : Bool
  Rename : Bool
  Delete : Bool
  Share : Bool
  SetShare : Bool
deriving Repr, DecidableEq

/-- The Go zero `Permission`. -/
def Permission.zero : Permission :=
  { Download := false, Preview := false, Upload := false, Comment := false,
    Rename := false, Delete := false, Share := false, SetShare := false }

/-- `json.Marshal` on `Permission` (all fields `omitempty`). -/
def Permission.marshalJSON (p : Permission) : Json :=
  .obj (omitNone
    [("can_download", encBool p.Download),
     ("can_preview", encBool p.Preview),
     ("can_upload", encBool p.Upload),
     ("can_comment", encBool p.Comment),
     ("can_rename", encBool p.Rename),
     ("can_delete", encBool p.Delete),
     ("can_share", encBool p.Share),
     ("can_set_share_access", encBool p.SetShare)])

/-- `json.Unmarshal` of a JSON value into an existing `Permission`. -/
def Permission.unmarshalInto (old : Permission) : Json → Except GoError Permission
  | .null => .ok old
  | .obj fs => do
    let download ← decField old.Download decBoolJ (fs.lookup "can_download")
    let preview ← decField old.Preview decBoolJ (fs.lookup "can_preview")
    let upload ← decField old.Upload decBoolJ (fs.lookup "can_upload")
    let comment ← decField old.Comment decBoolJ (fs.lookup "can_comment")
    let rename ← decField old.Rename decBoolJ (fs.lookup "can_rename")
    let delete ← decField old.Delete decBoolJ (fs.lookup "can_delete")
    let share ← decField old.Share decBoolJ (fs.lookup "can_share")
    let setShare ← decField old.SetShare decBoolJ (fs.lookup "can_set_share_access")
    pure { Download := download, Preview := preview, Upload := upload,
           Comment := comment, Rename := rename, Delete := delete,
           Share := share, SetShare := setShare }
  | _ => .error "json: cannot unmarshal into Permission"

/-- `entity.go` `Collection`. -/
structure Collection where
  Count : Int
  Entry : List Entity
  Limit : Int
  Offset : Int
deriving Repr, DecidableEq

/-- The Go zero `Collection`. -/
def Collection.zero : Collection :=
  { Count := 0, Entry := [], Limit := 0, Offset := 0 }

/-- `json.Marshal` on `Collection` (all fields `omitempty`). -/
def Collection.marshalJSON (c : Collection) : Json :=
  .obj (omitNone
    [("total_count", encInt c.Count),
     ("entries", encList Entity.marshalJSON c.Entry),
     ("limit", encInt c.Limit),
     ("offset", encInt c.Offset)])

/-- `json.Unmarshal` of a JSON value into an existing `Collection`. -/
def Collection.unmarshalInto (old : Collection) : Json → Except GoError Collection
  | .null => .ok old
  | .obj fs => do
    let count ← decField old.Count decIntJ (fs.lookup "total_count")
    let entry ← decList old.Entry Entity.zero Entity.unmarshalInto (fs.lookup "entries")
    let limit ← decField old.Limit decIntJ (fs.lookup "limit")
    let offset ← decField old.Offset decIntJ (fs.lookup "offset")
    pure { Count := count, Entry := entry, Limit := limit, Offset := offset }
  | _ => .error "json: cannot unmarshal into Collection"

/-- `entity.go` `BoxLock`. -/
structure BoxLock where
  Id : String
  CreatedBy : String
  CreatedAt : Option GoTime
  ExpiresAt : Option GoTime
  Download : Bool
deriving Repr, DecidableEq

/-- The Go zero `BoxLock`. -/
def BoxLock.zero : BoxLock :=
  { Id := "", CreatedBy := "", CreatedAt := none, ExpiresAt := none, Download := false }

/-- `json.Marshal` on `BoxLock` (all fields `omitempty`). -/
def BoxLock.marshalJSON (l : BoxLock) : Json :=
  .obj (omitNone
    [("id", encStr l.Id),
     ("created_by", encStr l.CreatedBy),
     ("created_at", encTimeOpt l.CreatedAt),
     ("expires_at", encTimeOpt l.ExpiresAt),
     ("is_download_prevented", encBool l.Download)])

/-- `json.Unmarshal` of a JSON value into an existing `BoxLock`. -/
def BoxLock.unmarshalInto (old : BoxLock) : Json → Except GoError BoxLock
  | .null => .ok old
  | .obj fs => do
    let id ← decField old.Id decStrJ (fs.lookup "id")
    let createdBy ← decField old.CreatedBy decStrJ (fs.lookup "created_by")
    let createdAt ← decTimeOpt old.CreatedAt (fs.lookup "created_at")
    let expiresAt ← decTimeOpt old.ExpiresAt (fs.lookup "expires_at")
    let download ← decField old.Download decBoolJ (fs.lookup "is_download_prevented")
    pure { Id := id, CreatedBy := createdBy, CreatedAt := createdAt,
           ExpiresAt := expiresAt, Download := download }
  | _ => .error "json: cannot unmarshal into BoxLock"

/-- `entity.go` `SharedObject`. -/
structure SharedObject where
  Url : String
  DownloadUrl : String
  VanityUrl : String
  HasPassword : Bool
  UnsharedAt : Option GoTime
  DownloadCount : Int
  PreviewCount : Int
  Access : String
  Permission : Option Permission
deriving Repr, DecidableEq

/-- The Go zero `SharedObject`. -/
def SharedObject.zero : SharedObject :=
  { Url := "", DownloadUrl := "", VanityUrl := "", HasPassword := false,
    UnsharedAt := none, DownloadCount := 0, PreviewCount := 0, Access := "",
    Permission := none }

/-- `json.Marshal` on `SharedObject` (all fields `omitempty`). -/
def SharedObject.marshalJSON (s : SharedObject) : Json :=
  .obj (omitNone
    [("url", encStr s.Url),
     ("download_url", encStr s.DownloadUrl),
     ("vanity_url", encStr s.VanityUrl),
     ("is_password_enabled", encBool s.HasPassword),
     ("unshared_at", encTimeOpt s.UnsharedAt),
     ("download_count", encInt s.DownloadCount),
     ("preview_count", encInt s.PreviewCount),
     ("access", encStr s.Access),
     ("permissions", encObjOpt Permission.marshalJSON s.Permission)])

/-- `json.Unmarshal` of a JSON value into an existing `SharedObject`. -/
def SharedObject.unmarshalInto (old : SharedObject) : Json → Except GoError SharedObject
  | .null => .ok old
  | .obj fs => do
    let url ← decField old.Url decStrJ (fs.lookup "url")
    let downloadUrl ← decField old.DownloadUrl decStrJ (fs.lookup "download_url")
    let vanityUrl ← decField old.VanityUrl decStrJ (fs.lookup "vanity_url")
    let hasPassword ← decField old.HasPassword decBoolJ (fs.lookup "is_password_enabled")
    let unsharedAt ← decTimeOpt old.UnsharedAt (fs.lookup "unshared_at")
    let downloadCount ← decField old.DownloadCount decIntJ (fs.lookup "download_count")
    let previewCount ← decField old.PreviewCount decIntJ (fs.lookup "preview_count")
    let access ← decField old.Access decStrJ (fs.lookup "access")
    let permission ← decObjOpt old.Permission Permission.zero Permission.unmarshalInto
      (fs.lookup "permissions")
    pure { Url := url, DownloadUrl := downloadUrl, VanityUrl := vanityUrl,
           HasPassword := hasPassword, UnsharedAt := unsharedAt,
           DownloadCount := downloadCount, PreviewCount := previewCount,
           Access := access, Permission := permission }
  | _ => .error "json: cannot unmarshal into SharedObject"

/-! ## file.go / folder sources: File, Folder, UploadEmail -/

/-- Modelled from the spec: the `UploadEmail` struct is referenced by
`Folder.FolderUploadEmail` but its definition is missing from `src/`.
Per the spec ("Resource structs mirror the Box API's JSON shapes
directly"), the Box API `folder_upload_email` object carries `access`
and `email` string keys. -/
structure UploadEmail where
  Access : String
  Email : String
deriving Repr, DecidableEq

/-- The Go zero `UploadEmail`. -/
def UploadEmail.zero : UploadEmail :=
  { Access := "", Email := "" }

/-- `json.Marshal` on `UploadEmail` (fields `omitempty`). -/
def UploadEmail.marshalJSON (u : UploadEmail) : Json :=
  .obj (omitNone
    [("access", encStr u.Access),
     ("email", encStr u.Email)])

/-- `json.Unmarshal` of a JSON value into an existing `UploadEmail`. -/
def UploadEmail.unmarshalInto (old : UploadEmail) : Json → Except GoError UploadEmail
  | .null => .ok old
  | .obj fs => do
    let access ← decField old.Access decStrJ (fs.lookup "access")
    let email ← decField old.Email decStrJ (fs.lookup "email")
    pure { Access := access, Email := email }
  | _ => .error "json: cannot unmarshal into UploadEmail"

/-- `file.go` `File`. -/
structure File where
  Id : String
  SequenceId : String
  ETag : String
  Sha1 : String
  Name : String
  Description : String
  Size : Int
  PathCollection : Option Collection
  CreatedAt : Option GoTime
  ModifiedAt : Option GoTime
  ThrashedAt : Option GoTime
  PurgedAt : Option GoTime
  ContentCreatedAt : Option GoTime
  ContentModifiedAt : Option GoTime
  CreatedBy : Option Entity
  ModifiedBy : Option Entity
  OwnedBy : Option Entity
  SharedLink : Option SharedObject
  Parent : Option Entity
  ItemStatus : String
  VersionNumber : String
  CommentCount : Int
  Permissions : Option Permission
  Tags : List String
  Lock : Option BoxLock
  Extension : String
deriving Repr, DecidableEq

/-- The Go zero `File`. -/
def File.zero : File :=
  { Id := "", SequenceId := "", ETag := "", Sha1 := "", Name := "",
    Description := "", Size := 0, PathCollection := none, CreatedAt := none,
    ModifiedAt := none, ThrashedAt := none, PurgedAt := none,
    ContentCreatedAt := none, ContentModifiedAt := none, CreatedBy := none,
    ModifiedBy := none, OwnedBy := none, SharedLink := none, Parent := none,
    ItemStatus := "", VersionNumber := "", CommentCount := 0,
    Permissions := none, Tags := [], Lock := none, Extension := "" }

/-- `json.Marshal` on `File` (all fields `omitempty`). -/
def File.marshalJSON (f : File) : Json :=
  .obj (omitNone
    [("id", encStr f.Id),
     ("sequence_id", encStr f.SequenceId),
     ("etag", encStr f.ETag),
     ("sha1", encStr f.Sha1),
     ("name", encStr f.Name),
     ("description", encStr f.Description),
     ("size", encInt f.Size),
     ("path_collection", encObjOpt Collection.marshalJSON f.PathCollection),
     ("created_at", encTimeOpt f.CreatedAt),
     ("modified_at", encTimeOpt f.ModifiedAt),
     ("thrashed_at", encTimeOpt f.ThrashedAt),
     ("purged_at", encTimeOpt f.PurgedAt),
     ("content_created_at", encTimeOpt f.ContentCreatedAt),
     ("content_modified_at", encTimeOpt f.ContentModifiedAt),
     ("created_by", encObjOpt Entity.marshalJSON f.CreatedBy),
     ("modified_by", encObjOpt Entity.marshalJSON f.ModifiedBy),
     ("owned_by", encObjOpt Entity.marshalJSON f.OwnedBy),
     ("shared_link", encObjOpt SharedObject.marshalJSON f.SharedLink),
     ("parent", encObjOpt Entity.marshalJSON f.Parent),
     ("item_status", encStr f.ItemStatus),
     ("version_number", encStr f.VersionNumber),
     ("comment_count", encInt f.CommentCount),
     ("permissions", encObjOpt Permission.marshalJSON f.Permissions),
     ("tags", encList Json.str f.Tags),
     ("lock", encObjOpt BoxLock.marshalJSON f.Lock),
     ("extension", encStr f.Extension)])

/-- `json.Unmarshal` of a JSON value into an existing `File`. -/
def File.unmarshalInto (old : File) : Json → Except GoError File
  | .null => .ok old
  | .obj fs => do
    let id ← decField old.Id decStrJ (fs.lookup "id")
    let sequenceId ← decField old.SequenceId decStrJ (fs.lookup "sequence_id")
    let etag ← decField old.ETag decStrJ (fs.lookup "etag")
    let sha1 ← decField old.Sha1 decStrJ (fs.lookup "sha1")
    let name ← decField old.Name decStrJ (fs.lookup "name")
    let description ← decField old.Description decStrJ (fs.lookup "description")
    let size ← decField old.Size decIntJ (fs.lookup "size")
    let pathCollection ← decObjOpt old.PathCollection Collection.zero
      Collection.unmarshalInto (fs.lookup "path_collection")
    let createdAt ← decTimeOpt old.CreatedAt (fs.lookup "created_at")
    let modifiedAt ← decTimeOpt old.ModifiedAt (fs.lookup "modified_at")
    let thrashedAt ← decTimeOpt old.ThrashedAt (fs.lookup "thrashed_at")
    let purgedAt ← decTimeOpt old.PurgedAt (fs.lookup "purged_at")
    let contentCreatedAt ← decTimeOpt old.ContentCreatedAt (fs.lookup "content_created_at")
    let contentModifiedAt ← decTimeOpt old.ContentModifiedAt (fs.lookup "content_modified_at")
    let createdBy ← decObjOpt old.CreatedBy Entity.zero Entity.unmarshalInto
      (fs.lookup "created_by")
    let modifiedBy ← decObjOpt old.ModifiedBy Entity.zero Entity.unmarshalInto
      (fs.lookup "modified_by")
    let ownedBy ← decObjOpt old.OwnedBy Entity.zero Entity.unmarshalInto
      (fs.lookup "owned_by")
    let sharedLink ← decObjOpt old.SharedLink SharedObject.zero SharedObject.unmarshalInto
      (fs.lookup "shared_link")
    let parent ← decObjOpt old.Parent Entity.zero Entity.unmarshalInto
      (fs.lookup "parent")
    let itemStatus ← decField old.ItemStatus decStrJ (fs.lookup "item_status")
    let versionNumber ← decField old.VersionNumber decStrJ (fs.lookup "version_number")
    let commentCount ← decField old.CommentCount decIntJ (fs.lookup "comment_count")
    let permissions ← decObjOpt old.Permissions Permission.zero Permission.unmarshalInto
      (fs.lookup "permissions")
    let tags ← decList old.Tags "" decStrJ (fs.lookup "tags")
    let lock ← decObjOpt old.Lock BoxLock.zero BoxLock.unmarshalInto
      (fs.lookup "lock")
    let extension ← decField old.Extension decStrJ (fs.lookup "extension")
    pure { Id := id, SequenceId := sequenceId, ETag := etag, Sha1 := sha1,
           Name := name, Description := description, Size := size,
           PathCollection := pathCollection, CreatedAt := createdAt,
           ModifiedAt := modifiedAt, ThrashedAt := thrashedAt,
           PurgedAt := purgedAt, ContentCreatedAt := contentCreatedAt,
           ContentModifiedAt := contentModifiedAt, CreatedBy := createdBy,
           ModifiedBy := modifiedBy, OwnedBy := ownedBy,
           SharedLink := sharedLink, Parent := parent, ItemStatus := itemStatus,
           VersionNumber := versionNumber, CommentCount := commentCount,
           Permissions := permissions, Tags := tags, Lock := lock,
           Extension := extension }
  | _ => .error "json: cannot unmarshal into File"

/-- `Folder` (the pointer-field version whose methods the claims
cite). -/
structure Folder where
  Id : String
  SequenceId : String
  ETag : String
  Name : String
  Description : String
  Size : Int
  PathCollection : Option Collection
  CreatedAt : Option GoTime
  ModifiedAt : Option GoTime
  ThrashedAt : Option GoTime
  PurgedAt : Option GoTime
  ContentCreatedAt : Option GoTime
  ContentModifiedAt : Option GoTime
  CreatedBy : Option Entity
  ModifiedBy : Option Entity
  OwnedBy : Option Entity
  SharedLink : Option SharedObject
  Parent : Option Entity
  ItemStatus : String
  Permissions : Option Permission
  Tags : List String
  HasCollaborations : Bool
  SyncStatus : String
  ItemCollection : Option Collection
  FolderUploadEmail : Option UploadEmail
deriving Repr, DecidableEq

/-- The Go zero `Folder`. -/
def Folder.zero : Folder :=
  { Id := "", SequenceId := "", ETag := "", Name := "", Description := "",
    Size := 0, PathCollection := none, CreatedAt := none, ModifiedAt := none,
    ThrashedAt := none, PurgedAt := none, ContentCreatedAt := none,
    ContentModifiedAt := none, CreatedBy := none, ModifiedBy := none,
    OwnedBy := none, SharedLink := none, Parent := none, ItemStatus := "",
    Permissions := none, Tags := [], HasCollaborations := false,
    SyncStatus := "", ItemCollection := none, FolderUploadEmail := none }

/-- `json.Marshal` on `Folder` (all fields `omitempty`). -/
def Folder.marshalJSON (f : Folder) : Json :=
  .obj (omitNone
    [("id", encStr f.Id),
     ("sequence_id", encStr f.SequenceId),
     ("etag", encStr f.ETag),
     ("name", encStr f.Name),
     ("description", encStr f.Description),
     ("size", encInt f.Size),
     ("path_collection", encObjOpt Collection.marshalJSON f.PathCollection),
     ("created_at", encTimeOpt f.CreatedAt),
     ("modified_at", encTimeOpt f.ModifiedAt),
     ("thrashed_at", encTimeOpt f.ThrashedAt),
     ("purged_at", encTimeOpt f.PurgedAt),
     ("content_created_at", encTimeOpt f.ContentCreatedAt),
     ("content_modified_at", encTimeOpt f.ContentModifiedAt),
     ("created_by", encObjOpt Entity.marshalJSON f.CreatedBy),
     ("modified_by", encObjOpt Entity.marshalJSON f.ModifiedBy),
     ("owned_by", encObjOpt Entity.marshalJSON f.OwnedBy),
     ("shared_link", encObjOpt SharedObject.marshalJSON f.SharedLink),
     ("parent", encObjOpt Entity.marshalJSON f.Parent),
     ("item_status", encStr f.ItemStatus),
     ("permissions", encObjOpt Permission.marshalJSON f.Permissions),
     ("tags", encList Json.str f.Tags),
     ("has_collaborations", encBool f.HasCollaborations),
     ("sync_status", encStr f.SyncStatus),
     ("item_collection", encObjOpt Collection.marshalJSON f.ItemCollection),
     ("folder_upload_email", encObjOpt UploadEmail.marshalJSON f.FolderUploadEmail)])

/-- `json.Unmarshal` of a JSON value into an existing `Folder`. -/
def Folder.unmarshalInto (old : Folder) : Json → Except GoError Folder
  | .null => .ok old
  | .obj fs => do
    let id ← decField old.Id decStrJ (fs.lookup "id")
    let sequenceId ← decField old.SequenceId decStrJ (fs.lookup "sequence_id")
    let etag ← decField old.ETag decStrJ (fs.lookup "etag")
    let name ← decField old.Name decStrJ (fs.lookup "name")
    let description ← decField old.Description decStrJ (fs.lookup "description")
    let size ← decField old.Size decIntJ (fs.lookup "size")
    let pathCollection ← decObjOpt old.PathCollection Collection.zero
      Collection.unmarshalInto (fs.lookup "path_collection")
    let createdAt ← decTimeOpt old.CreatedAt (fs.lookup "created_at")
    let modifiedAt ← decTimeOpt old.ModifiedAt (fs.lookup "modified_at")
    let thrashedAt ← decTimeOpt old.ThrashedAt (fs.lookup "thrashed_at")
    let purgedAt ← decTimeOpt old.PurgedAt (fs.lookup "purged_at")
    let contentCreatedAt ← decTimeOpt old.ContentCreatedAt (fs.lookup "content_created_at")
    let contentModifiedAt ← decTimeOpt old.ContentModifiedAt (fs.lookup "content_modified_at")
    let createdBy ← decObjOpt old.CreatedBy Entity.zero Entity.unmarshalInto
      (fs.lookup "created_by")
    let modifiedBy ← decObjOpt old.ModifiedBy Entity.zero Entity.unmarshalInto
      (fs.lookup "modified_by")
    let ownedBy ← decObjOpt old.OwnedBy Entity.zero Entity.unmarshalInto
      (fs.lookup "owned_by")
    let sharedLink ← decObjOpt old.SharedLink SharedObject.zero SharedObject.unmarshalInto
      (fs.lookup "shared_link")
    let parent ← decObjOpt old.Parent Entity.zero Entity.unmarshalInto
      (fs.lookup "parent")
    let itemStatus ← decField old.ItemStatus decStrJ (fs.lookup "item_status")
    let permissions ← decObjOpt old.Permissions Permission.zero Permission.unmarshalInto
      (fs.lookup "permissions")
    let tags ← decList old.Tags "" decStrJ (fs.lookup "tags")
    let hasCollaborations ← decField old.HasCollaborations decBoolJ
      (fs.lookup "has_collaborations")
    let syncStatus ← decField old.SyncStatus decStrJ (fs.lookup "sync_status")
    let itemCollection ← decObjOpt old.ItemCollection Collection.zero
      Collection.unmarshalInto (fs.lookup "item_collection")
    let folderUploadEmail ← decObjOpt old.FolderUploadEmail UploadEmail.zero
      UploadEmail.unmarshalInto (fs.lookup "folder_upload_email")
    pure { Id := id, SequenceId := sequenceId, ETag := etag, Name := name,
           Description := description, Size := size,
           PathCollection := pathCollection, CreatedAt := createdAt,
           ModifiedAt := modifiedAt, ThrashedAt := thrashedAt,
           PurgedAt := purgedAt, ContentCreatedAt := contentCreatedAt,
           ContentModifiedAt := contentModifiedAt, CreatedBy := createdBy,
           ModifiedBy := modifiedBy, OwnedBy := ownedBy,
           SharedLink := sharedLink, Parent := parent, ItemStatus := itemStatus,
           Permissions := permissions, Tags := tags,
           HasCollaborations := hasCollaborations, SyncStatus := syncStatus,
           ItemCollection := itemCollection,
           FolderUploadEmail := folderUploadEmail }
  | _ => .error "json: cannot unmarshal into Folder"

/-! ## Resource methods (file.go, folder sources) -/

/-- `path/filepath` `Base`: the last element of the path, after
dropping trailing slashes; `"."` for the empty path, `"/"` if the path
is all slashes. -/
def filepathBase (path : String) : String :=
  if path = "" then "."
  else
    let cs := (path.data.reverse.dropWhile (fun c => c = '/')).reverse
    if cs = [] then "/"
    else String.mk (cs.reverse.takeWhile (fun c => c ≠ '/')).reverse

/-- A run of a resource method that returns only `error`: the requests
sent, the receiver struct after the call, and the returned error
(`none` = `nil`). -/
structure OpRun (ρ : Type) where
  sent : List (Client × Request)
  receiver : ρ
  err : Option GoError

/-- A run of a resource method that returns `(*α, error)`: the
requests sent, the receiver after the call, the returned pointer
(`none` = `nil`), and the returned error. -/
structure OpRunRet (ρ α : Type) where
  sent : List (Client × Request)
  receiver : ρ
  ret : Option α
  err : Option GoError

/-- `file.go` `File.Get`: empty-id guard, one GET to `files/<id>`,
on success unmarshal the body into the receiver.  (On an unmarshal
failure the partially-written receiver is not modelled; the receiver
is shown unchanged.) -/
def File.get (f : File) (box : Box) (env : HttpEnv Json) : OpRun File :=
  if f.Id = "" then { sent := [], receiver := f, err := some "Empty id while using Get" }
  else
    let run := box.doRequest env "GET" ("files/" ++ f.Id) none none
    match run.result with
    | .ok body =>
      match File.unmarshalInto f body with
      | .ok f2 => { sent := run.sent, receiver := f2, err := none }
      | .error e => { sent := run.sent, receiver := f, err := some e }
    | .error e => { sent := run.sent, receiver := f, err := some e }

/-- `file.go` `File.Delete`: empty-id guard, one DELETE to
`files/<id>`; the body is discarded. -/
def File.delete (f : File) (box : Box) (env : HttpEnv Json) : OpRun File :=
  if f.Id = "" then { sent := [], receiver := f, err := some "Empty id while using Delete" }
  else
    let run := box.doRequest env "DELETE" ("files/" ++ f.Id) none none
    { sent := run.sent, receiver := f,
      err := match run.result with | .ok _ => none | .error e => some e }

/-- `file.go` `File.Rename`: empty-id guard, marshal
`File{Name: name}` as the body, one PUT to `files/<id>`, unmarshal the
response into the receiver. -/
def File.rename (f : File) (box : Box) (env : HttpEnv Json) (name : String) : OpRun File :=
  if f.Id = "" then { sent := [], receiver := f, err := some "Empty id while using Rename" }
  else
    let reqBody := File.marshalJSON { File.zero with Name := name }
    let run := box.doRequest env "PUT" ("files/" ++ f.Id) none (some reqBody)
    match run.result with
    | .ok body =>
      match File.unmarshalInto f body with
      | .ok f2 => { sent := run.sent, receiver := f2, err := none }
      | .error e => { sent := run.sent, receiver := f, err := some e }
    | .error e => { sent := run.sent, receiver := f, err := some e }

/-- `file.go` `File.Move`: guard on the file id and the parent folder
id, marshal `File{Parent: &Entity{Id: parent.Id}}`, one PUT to
`files/<id>`, unmarshal the response into the receiver. -/
def File.move (f : File) (box : Box) (env : HttpEnv Json) (parent : Folder) : OpRun File :=
  if f.Id = "" ∨ parent.Id = "" then
    { sent := [], receiver := f, err := some "Empty id while using Move" }
  else
    let reqBody := File.marshalJSON
      { File.zero with Parent := some { Entity.zero with Id := parent.Id } }
    let run := box.doRequest env "PUT" ("files/" ++ f.Id) none (some reqBody)
    match run.result with
    | .ok body =>
      match File.unmarshalInto f body with
      | .ok f2 => { sent := run.sent, receiver := f2, err := none }
      | .error e => { sent := run.sent, receiver := f, err := some e }
    | .error e => { sent := run.sent, receiver := f, err := some e }

/-- `file.go` `File.Copy`: guard on both ids, marshal
`File{Parent: &Entity{Id: parent.Id}}`, one POST to
`files/<id>/copy`, unmarshal into the local `file` value and return
its address.  When unmarshalling fails the Go code still returns
`&file` (non-nil) together with the error; the pre-unmarshal value
stands for the partially-written struct. -/
def File.copy (f : File) (box : Box) (env : HttpEnv Json) (parent : Folder) :
    OpRunRet File File :=
  if f.Id = "" ∨ parent.Id = "" then
    { sent := [], receiver := f, ret := none, err := some "Empty id while using Copy" }
  else
    let file : File := { File.zero with Parent := some { Entity.zero with Id := parent.Id } }
    let reqBody := File.marshalJSON file
    let run := box.doRequest env "POST" ("files/" ++ f.Id ++ "/copy") none (some reqBody)
    match run.result with
    | .ok body =>
      match File.unmarshalInto file body with
      | .ok f2 => { sent := run.sent, receiver := f, ret := some f2, err := none }
      | .error e => { sent := run.sent, receiver := f, ret := some file, err := some e }
    | .error e => { sent := run.sent, receiver := f, ret := none, err := some e }

/-- Oracle outcomes for one `UploadFile` call. -/
structure UploadEnv where
  openErr : Option GoError
  createFormFileErr : Option GoError
  copyErr : Option GoError
  closeErr : Option GoError
  reqErr : Option GoError
  sendResult : Except GoError (Response Json)
  fileContents : String
  modTime : GoTime

/-- `file.go` `File.UploadFile`: open the file, build the multipart
body (form file `filename`, `parent_id`, `content_modified_at` from
`os.Stat`), close the writer, create a POST request to
`<upload base>/files/content` (the source spells the field
`box.APIUPLOADURL`; it is the upload base URL, `UPLOADURL` in
`box.go`), send it through `box.client()`, pass the response through
`getResponse` and unmarshal into the receiver.  The `io.Copy` error
is assigned to `err` but never checked before `err` is overwritten by
`writer.Close()`, so it never aborts the call. -/
def File.uploadFile (f : File) (box : Box) (env : UploadEnv) (path : String)
    (parent : Folder) : OpRun File :=
  match env.openErr with
  | some e => { sent := [], receiver := f, err := some e }
  | none =>
    match env.createFormFileErr with
    | some e => { sent := [], receiver := f, err := some e }
    | none =>
      let body : MultipartBody :=
        { filename := filepathBase path, contents := env.fileContents,
          parentId := parent.Id,
          contentModifiedAt := BoxTime.marshalJSON env.modTime }
      match env.closeErr with
      | some e => { sent := [], receiver := f, err := some e }
      | none =>
        let rawurl := box.UPLOADURL ++ "/files/content"
        match env.reqErr with
        | some e => { sent := [], receiver := f, err := some e }
        | none =>
          let request : Request := { method := "POST", url := rawurl, body := .multipart body }
          match env.sendResult with
          | .error e => { sent := [(box.client, request)], receiver := f, err := some e }
          | .ok response =>
            match getResponse response with
            | .error e => { sent := [(box.client, request)], receiver := f, err := some e }
            | .ok respBody =>
              match File.unmarshalInto f respBody with
              | .error e => { sent := [(box.client, request)], receiver := f, err := some e }
              | .ok f2 => { sent := [(box.client, request)], receiver := f2, err := none }

/-- Folder methods source, `Folder.Create`: guard on the receiver's
(parent) id, marshal `Folder{Name: name, Parent: &Entity{Id: f.Id}}`,
one POST to `folders`, unmarshal into the local value and return its
address (like `File.Copy`, `&fold` is returned even when
unmarshalling fails). -/
def Folder.create (f : Folder) (box : Box) (env : HttpEnv Json) (name : String) :
    OpRunRet Folder Folder :=
  if f.Id = "" then
    { sent := [], receiver := f, ret := none, err := some "Empty id while using Create" }
  else
    let fold : Folder :=
      { Folder.zero with Name := name, Parent := some { Entity.zero with Id := f.Id } }
    let reqBody := Folder.marshalJSON fold
    let run := box.doRequest env "POST" "folders" none (some reqBody)
    match run.result with
    | .ok body =>
      match Folder.unmarshalInto fold body with
      | .ok f2 => { sent := run.sent, receiver := f, ret := some f2, err := none }
      | .error e => { sent := run.sent, receiver := f, ret := some fold, err := some e }
    | .error e => { sent := run.sent, receiver := f, ret := none, err := some e }

/-- Folder methods source, `Folder.Get`: empty-id guard, one GET to
`folders/<id>`, unmarshal into the receiver. -/
def Folder.get (f : Folder) (box : Box) (env : HttpEnv Json) : OpRun Folder :=
  if f.Id = "" then { sent := [], receiver := f, err := some "Empty id while using Get" }
  else
    let run := box.doRequest env "GET" ("folders/" ++ f.Id) none none
    match run.result with
    | .ok body =>
      match Folder.unmarshalInto f body with
      | .ok f2 => { sent := run.sent, receiver := f2, err := none }
      | .error e => { sent := run.sent, receiver := f, err := some e }
    | .error e => { sent := run.sent, receiver := f, err := some e }

/-- Folder methods source, `Folder.Delete`: empty-id guard, one DELETE
to `folders/<id>` with query parameters
`url.Values{"recursive": {"true"}}`. -/
def Folder.delete (f : Folder) (box : Box) (env : HttpEnv Json) : OpRun Folder :=
  if f.Id = "" then { sent := [], receiver := f, err := some "Empty id while using Delete" }
  else
    let run := box.doRequest env "DELETE" ("folders/" ++ f.Id)
      (some { pairs := [("recursive", ["true"])] }) none
    { sent := run.sent, receiver := f,
      err := match run.result with | .ok _ => none | .error e => some e }

/-- Folder methods source, `Folder.Rename`: empty-id guard, marshal
`Folder{Name: name}`, one PUT to `folders/<id>`, unmarshal into the
receiver. -/
def Folder.rename (f : Folder) (box : Box) (env : HttpEnv Json) (name : String) :
    OpRun Folder :=
  if f.Id = "" then { sent := [], receiver := f, err := some "Empty id while using Rename" }
  else
    let reqBody := Folder.marshalJSON { Folder.zero with Name := name }
    let run := box.doRequest env "PUT" ("folders/" ++ f.Id) none (some reqBody)
    match run.result with
    | .ok body =>
      match Folder.unmarshalInto f body with
      | .ok f2 => { sent := run.sent, receiver := f2, err := none }
      | .error e => { sent := run.sent, receiver := f, err := some e }
    | .error e => { sent := run.sent, receiver := f, err := some e }

/-- Folder methods source, `Folder.Move`: guard on both ids, marshal
`Folder{Parent: &Entity{Id: parent.Id}}`, one PUT to `folders/<id>`,
unmarshal into the receiver. -/
def Folder.move (f : Folder) (box : Box) (env : HttpEnv Json) (parent : Folder) :
    OpRun Folder :=
  if f.Id = "" ∨ parent.Id = "" then
    { sent := [], receiver := f, err := some "Empty id while using Move" }
  else
    let reqBody := Folder.marshalJSON
      { Folder.zero with Parent := some { Entity.zero with Id := parent.Id } }
    let run := box.doRequest env "PUT" ("folders/" ++ f.Id) none (some reqBody)
    match run.result with
    | .ok body =>
      match Folder.unmarshalInto f body with
      | .ok f2 => { sent := run.sent, receiver := f2, err := none }
      | .error e => { sent := run.sent, receiver := f, err := some e }
    | .error e => { sent := run.sent, receiver := f, err := some e }

/-- Folder methods source, `Folder.Copy`: guard on both ids, marshal
`Folder{Parent: &Entity{Id: parent.Id}}`, one POST to
`folders/<id>/copy`, unmarshal into the local value and return its
address. -/
def Folder.copy (f : Folder) (box : Box) (env : HttpEnv Json) (parent : Folder) :
    OpRunRet Folder Folder :=
  if f.Id = "" ∨ parent.Id = "" then
    { sent := [], receiver := f, ret := none, err := some "Empty id while using Copy" }
  else
    let fold : Folder := { Folder.zero with Parent := some { Entity.zero with Id := parent.Id } }
    let reqBody := Folder.marshalJSON fold
    let run := box.doRequest env "POST" ("folders/" ++ f.Id ++ "/copy") none (some reqBody)
    match run.result with
    | .ok body =>
      match Folder.unmarshalInto fold body with
      | .ok f2 => { sent := run.sent, receiver := f, ret := some f2, err := none }
      | .error e => { sent := run.sent, receiver := f, ret := some fold, err := some e }
    | .error e => { sent := run.sent, receiver := f, ret := none, err := some e }

/-- Box-level folder helpers source, `Box.DeleteFolder`: one DELETE to
`folders/<id>` with `url.Values{"recursive": {"true"}}`, no id
guard. -/
def Box.deleteFolder (box : Box) (env : HttpEnv Json) (id : String) :
    List (Client × Request) × Option GoError :=
  let run := box.doRequest env "DELETE" ("folders/" ++ id)
    (some { pairs := [("recursive", ["true"])] }) none
  (run.sent, match run.result with | .ok _ => none | .error e => some e)

/-! ## Whole-second predicates for the round-trip statements -/

/-- Lift a Boolean predicate over an optional value (`none` passes). -/
def optAll {α : Type} (P : α → Bool) : Option α → Bool
  | none => true
  | some a => P a

/-- An optional `BoxTime` field has no sub-second component. -/
def timeWhole (o : Option GoTime) : Bool :=
  optAll (fun t => t.nanos == 0) o

/-- Every `BoxTime` inside a `BoxLock` has no sub-second component. -/
def BoxLock.timesWhole (l : BoxLock) : Bool :=
  timeWhole l.CreatedAt && timeWhole l.ExpiresAt

/-- Every `BoxTime` inside a `SharedObject` has no sub-second
component. -/
def SharedObject.timesWhole (s : SharedObject) : Bool :=
  timeWhole s.UnsharedAt

/-- Every `BoxTime` inside a `File` has no sub-second component. -/
def File.timesWhole (f : File) : Bool :=
  timeWhole f.CreatedAt && (timeWhole f.ModifiedAt && (timeWhole f.ThrashedAt &&
    (timeWhole f.PurgedAt && (timeWhole f.ContentCreatedAt &&
      (timeWhole f.ContentModifiedAt &&
        (optAll SharedObject.timesWhole f.SharedLink && optAll BoxLock.timesWhole f.Lock))))))

/-- Every `BoxTime` inside a `Folder` has no sub-second component. -/
def Folder.timesWhole (f : Folder) : Bool :=
  timeWhole f.CreatedAt && (timeWhole f.ModifiedAt && (timeWhole f.ThrashedAt &&
    (timeWhole f.PurgedAt && (timeWhole f.ContentCreatedAt &&
      (timeWhole f.ContentModifiedAt && optAll SharedObject.timesWhole f.SharedLink)))))

/-- A sample populated `File` used to evaluate the JSON round trip at
a concrete input. -/
def sampleFile : File :=
  { File.zero with
    Id := "10001"
    Name := "report.pdf"
    Size := 629644
    CreatedAt := some { secs := 1700000000, nanos := 0 }
    ModifiedAt := some { secs := 1700086400, nanos := 0 }
    SharedLink := some
      { SharedObject.zero with
        Url := "https://app.box.com/s/abc"
        UnsharedAt := some { secs := 1700003600, nanos := 0 } }
    Parent := some { Entity.zero with Id := "0", Type' := "folder" }
    ItemStatus := "active"
    Tags := ["q3", "finance"]
    Lock := some
      { BoxLock.zero with
        Id := "lock1"
        CreatedAt := some { secs := 1699990000, nanos := 0 } } }

/-! ## Helper lemmas: looking a key up in a marshalled object -/

/-- Looking up a key skips a head field with a different key, whether
or not that field was omitted. -/
theorem lookup_omitNone_ne (k k' : String) (o : Option Json)
    (rest : List (String × Option Json)) (h : (k == k') = false) :
    List.lookup k (omitNone ((k', o) :: rest)) = List.lookup k (omitNone rest) := by
  cases o <;> simp [omitNone, List.lookup, h]

/-- Looking up a key absent from a field list yields nothing. -/
theorem lookup_omitNone_notmem (k : String) (l : List (String × Option Json))
    (h : k ∉ l.map Prod.fst) : List.lookup k (omitNone l) = none := by
  induction l with
  | nil => rfl
  | cons p rest ih =>
    obtain ⟨k', o⟩ := p
    simp only [List.map_cons, List.mem_cons, not_or] at h
    have hne : (k == k') = false := by simpa using h.1
    rw [lookup_omitNone_ne k k' o rest hne]
    exact ih h.2

/-- Looking up the key of the head field recovers exactly the
marshalled optional value, provided no later field reuses the key. -/
theorem lookup_omitNone_self (k : String) (o : Option Json)
    (rest : List (String × Option Json)) (h : k ∉ rest.map Prod.fst) :
    List.lookup k (omitNone ((k, o) :: rest)) = o := by
  cases o with
  | none =>
    have : omitNone ((k, none) :: rest) = omitNone rest := by simp [omitNone]
    rw [this]
    exact lookup_omitNone_notmem k rest h
  | some j => simp [omitNone, List.lookup]

/-! ## Helper lemmas: each field decoder inverts its encoder -/

/-- Binding a successful `Except` computation applies the
continuation. -/
theorem exceptBind_ok {ε α β : Type} (a : α) (f : α → Except ε β) :
    (Except.ok a >>= f) = f a := rfl

/-- Binding a failed `Except` computation propagates the error. -/
theorem exceptBind_error {ε α β : Type} (e : ε) (f : α → Except ε β) :
    ((Except.error e : Except ε α) >>= f) = Except.error e := rfl

/-- `pure` for `Except` is `ok`. -/
theorem exceptPure {ε α : Type} (a : α) : (pure a : Except ε α) = Except.ok a := rfl

/-- Decoding a marshalled `omitempty` string field from a zero
destination recovers the value. -/
theorem decField_encStr (v : String) : decField "" decStrJ (encStr v) = .ok v := by
  unfold encStr
  split_ifs with h <;> simp [decField, decStrJ, h]

/-- Decoding a marshalled `omitempty` int field from a zero
destination recovers the value. -/
theorem decField_encInt (v : Int) : decField 0 decIntJ (encInt v) = .ok v := by
  unfold encInt
  split_ifs with h <;> simp [decField, decIntJ, h]

/-- Decoding a marshalled `omitempty` bool field from a zero
destination recovers the value. -/
theorem decField_encBool (v : Bool) : decField false decBoolJ (encBool v) = .ok v := by
  unfold encBool
  split_ifs with h <;> simp [decField, decBoolJ, h]

/-- Decoding a marshalled `*BoxTime` field recovers the value when it
has no sub-second component. -/
theorem decTimeOpt_enc (o : Option GoTime) (h : timeWhole o = true) :
    decTimeOpt none (encTimeOpt o) = .ok o := by
  cases o with
  | none => rfl
  | some t =>
    obtain ⟨secs, nanos⟩ := t
    have hn : nanos = 0 := by simpa [timeWhole, optAll] using h
    subst hn
    simp only [encTimeOpt, Option.map_some', BoxTime.marshalJSON, decTimeOpt,
      BoxTime.unmarshalJSON]
    split_ifs with hz
    · rw [← hz]
      rfl
    · rfl

/-- Decoding a marshalled pointer-to-struct field recovers the value,
given that the pointee's decoder inverts its encoder and the encoder
never produces `null`. -/
theorem decObjOpt_enc_of {α : Type} (zero : α) (dec : α → Json → Except GoError α)
    (enc : α → Json) (hnull : ∀ a, enc a ≠ .null) (o : Option α)
    (h : ∀ a, o = some a → dec zero (enc a) = .ok a) :
    decObjOpt none zero dec (encObjOpt enc o) = .ok o := by
  cases o with
  | none => rfl
  | some a =>
    have hd := h a rfl
    simp only [encObjOpt, Option.map_some']
    rcases he : enc a with _ | b | n | s | ts | el | fl
    · exact absurd he (hnull a)
    all_goals (rw [he] at hd; simp [decObjOpt, hd, Except.map])

/-- Element-wise decoding of an encoded list recovers the list. -/
theorem decElems_enc {α : Type} (zero : α) (dec : α → Json → Except GoError α)
    (enc : α → Json) (xs : List α) (h : ∀ a ∈ xs, dec zero (enc a) = .ok a) :
    decElems zero dec (xs.map enc) = .ok xs := by
  induction xs with
  | nil => rfl
  | cons a rest ih =>
    have ha := h a (List.mem_cons_self a rest)
    have hrest := ih fun b hb => h b (List.mem_cons_of_mem a hb)
    simp [decElems, ha, hrest, exceptBind_ok, exceptPure]

/-- Decoding a marshalled `omitempty` slice field from a zero
destination recovers the list, given that the element decoder inverts
the element encoder. -/
theorem decList_enc_of {α : Type} (zero : α) (dec : α → Json → Except GoError α)
    (enc : α → Json) (xs : List α) (h : ∀ a ∈ xs, dec zero (enc a) = .ok a) :
    decList [] zero dec (encList enc xs) = .ok xs := by
  unfold encList
  split_ifs with he
  · rw [List.isEmpty_iff] at he
    subst he
    rfl
  · simp only [decList]
    exact decElems_enc zero dec enc xs h

/-! ## Helper lemmas: per-struct JSON round trips -/

/-- `Entity` round trip. -/
theorem entity_rt (e : Entity) :
    Entity.unmarshalInto Entity.zero (Entity.marshalJSON e) = .ok e := by
  obtain ⟨sid, name, id, etag, ty⟩ := e
  simp [Entity.marshalJSON, Entity.unmarshalInto, Entity.zero,
        lookup_omitNone_ne, lookup_omitNone_self,
        decField_encStr, exceptBind_ok, exceptPure]

/-- `Permission` round trip. -/
theorem permission_rt (p : Permission) :
    Permission.unmarshalInto Permission.zero (Permission.marshalJSON p) = .ok p := by
  obtain ⟨d, pv, u, c, r, de, s, ss⟩ := p
  simp [Permission.marshalJSON, Permission.unmarshalInto, Permission.zero,
        lookup_omitNone_ne, lookup_omitNone_self,
        decField_encBool, exceptBind_ok, exceptPure]

/-- `UploadEmail` round trip. -/
theorem uploadEmail_rt (u : UploadEmail) :
    UploadEmail.unmarshalInto UploadEmail.zero (UploadEmail.marshalJSON u) = .ok u := by
  obtain ⟨a, e⟩ := u
  simp [UploadEmail.marshalJSON, UploadEmail.unmarshalInto, UploadEmail.zero,
        lookup_omitNone_ne, lookup_omitNone_self,
        decField_encStr, exceptBind_ok, exceptPure]

/-- Decoding a marshalled `[]Entity` field recovers the list. -/
theorem decList_enc_entity (xs : List Entity) :
    decList [] Entity.zero Entity.unmarshalInto (encList Entity.marshalJSON xs) = .ok xs :=
  decList_enc_of _ _ _ xs fun a _ => entity_rt a

/-- Decoding a marshalled `[]string` field recovers the list. -/
theorem decList_enc_str (xs : List String) :
    decList [] "" decStrJ (encList Json.str xs) = .ok xs :=
  decList_enc_of _ _ _ xs fun _ _ => rfl

/-- `Collection` round trip. -/
theorem collection_rt (c : Collection) :
    Collection.unmarshalInto Collection.zero (Collection.marshalJSON c) = .ok c := by
  obtain ⟨count, entry, limit, offset⟩ := c
  simp [Collection.marshalJSON, Collection.unmarshalInto, Collection.zero,
        lookup_omitNone_ne, lookup_omitNone_self,
        decField_encInt, decList_enc_entity, exceptBind_ok, exceptPure]

/-- `BoxTime` round trip at whole-second precision. -/
theorem boxtime_rt (t : GoTime) (h : t.nanos = 0) :
    BoxTime.unmarshalJSON goZeroTime (some (BoxTime.marshalJSON t)) = .ok t := by
  obtain ⟨secs, nanos⟩ := t
  replace h : nanos = 0 := h
  subst h
  simp only [BoxTime.marshalJSON, BoxTime.unmarshalJSON]
  split_ifs with hz
  · rw [← hz]
  · rfl

/-- `BoxLock` round trip at whole-second precision. -/
theorem boxlock_rt (l : BoxLock) (h : BoxLock.timesWhole l = true) :
    BoxLock.unmarshalInto BoxLock.zero (BoxLock.marshalJSON l) = .ok l := by
  obtain ⟨id, createdBy, createdAt, expiresAt, download⟩ := l
  simp only [BoxLock.timesWhole, Bool.and_eq_true] at h
  obtain ⟨h1, h2⟩ := h
  simp [BoxLock.marshalJSON, BoxLock.unmarshalInto, BoxLock.zero,
        lookup_omitNone_ne, lookup_omitNone_self,
        decField_encStr, decField_encBool, decTimeOpt_enc, h1, h2,
        exceptBind_ok, exceptPure]

/-- Decoding a marshalled `*Permission` field recovers the value. -/
theorem decObjOpt_enc_permission (o : Option Permission) :
    decObjOpt none Permission.zero Permission.unmarshalInto
      (encObjOpt Permission.marshalJSON o) = .ok o :=
  decObjOpt_enc_of _ _ _ (fun a => by simp [Permission.marshalJSON]) o
    (fun a _ => permission_rt a)

/-- Decoding a marshalled `*Entity` field recovers the value. -/
theorem decObjOpt_enc_entity (o : Option Entity) :
    decObjOpt none Entity.zero Entity.unmarshalInto
      (encObjOpt Entity.marshalJSON o) = .ok o :=
  decObjOpt_enc_of _ _ _ (fun a => by simp [Entity.marshalJSON]) o
    (fun a _ => entity_rt a)

/-- Decoding a marshalled `*Collection` field recovers the value. -/
theorem decObjOpt_enc_collection (o : Option Collection) :
    decObjOpt none Collection.zero Collection.unmarshalInto
      (encObjOpt Collection.marshalJSON o) = .ok o :=
  decObjOpt_enc_of _ _ _ (fun a => by simp [Collection.marshalJSON]) o
    (fun a _ => collection_rt a)

/-- Decoding a marshalled `*UploadEmail` field recovers the value. -/
theorem decObjOpt_enc_uploadEmail (o : Option UploadEmail) :
    decObjOpt none UploadEmail.zero UploadEmail.unmarshalInto
      (encObjOpt UploadEmail.marshalJSON o) = .ok o :=
  decObjOpt_enc_of _ _ _ (fun a => by simp [UploadEmail.marshalJSON]) o
    (fun a _ => uploadEmail_rt a)

/-- `SharedObject` round trip at whole-second precision. -/
theorem sharedObject_rt (s : SharedObject) (h : SharedObject.timesWhole s = true) :
    SharedObject.unmarshalInto SharedObject.zero (SharedObject.marshalJSON s) = .ok s := by
  obtain ⟨url, durl, vurl, hp, ua, dc, pc, ac, pm⟩ := s
  replace h : timeWhole ua = true := h
  simp [SharedObject.marshalJSON, SharedObject.unmarshalInto, SharedObject.zero,
        lookup_omitNone_ne, lookup_omitNone_self,
        decField_encStr, decField_encInt, decField_encBool, decTimeOpt_enc,
        decObjOpt_enc_permission, h, exceptBind_ok, exceptPure]

/-- Decoding a marshalled `*BoxLock` field recovers the value at
whole-second precision. -/
theorem decObjOpt_enc_lock (o : Option BoxLock)
    (h : optAll BoxLock.timesWhole o = true) :
    decObjOpt none BoxLock.zero BoxLock.unmarshalInto
      (encObjOpt BoxLock.marshalJSON o) = .ok o :=
  decObjOpt_enc_of _ _ _ (fun a => by simp [BoxLock.marshalJSON]) o
    (fun a ha => boxlock_rt a (by rw [ha] at h; simpa [optAll] using h))

/-- Decoding a marshalled `*SharedObject` field recovers the value at
whole-second precision. -/
theorem decObjOpt_enc_shared (o : Option SharedObject)
    (h : optAll SharedObject.timesWhole o = true) :
    decObjOpt none SharedObject.zero SharedObject.unmarshalInto
      (encObjOpt SharedObject.marshalJSON o) = .ok o :=
  decObjOpt_enc_of _ _ _ (fun a => by simp [SharedObject.marshalJSON]) o
    (fun a ha => sharedObject_rt a (by rw [ha] at h; simpa [optAll] using h))

/-- `File` round trip at whole-second precision. -/
theorem file_rt (f : File) (h : File.timesWhole f = true) :
    File.unmarshalInto File.zero (File.marshalJSON f) = .ok f := by
  obtain ⟨id, sid, etag, sha1, name, desc, size, pc, ca, ma, ta, pa, cca, cma,
    cb, mb, ob, sl, par, st, vn, cc, pm, tags, lk, ext⟩ := f
  simp only [File.timesWhole, Bool.and_eq_true] at h
  obtain ⟨h1, h2, h3, h4, h5, h6, h7, h8⟩ := h
  simp [File.marshalJSON, File.unmarshalInto, File.zero,
        lookup_omitNone_ne, lookup_omitNone_self,
        decField_encStr, decField_encInt, decField_encBool, decTimeOpt_enc,
        decObjOpt_enc_permission, decObjOpt_enc_entity, decObjOpt_enc_collection,
        decObjOpt_enc_shared, decObjOpt_enc_lock, decList_enc_str,
        h1, h2, h3, h4, h5, h6, h7, h8, exceptBind_ok, exceptPure]

/-- `Folder` round trip at whole-second precision. -/
theorem folder_rt (f : Folder) (h : Folder.timesWhole f = true) :
    Folder.unmarshalInto Folder.zero (Folder.marshalJSON f) = .ok f := by
  obtain ⟨id, sid, etag, name, desc, size, pc, ca, ma, ta, pa, cca, cma,
    cb, mb, ob, sl, par, st, pm, tags, hc, ss, ic, fue⟩ := f
  simp only [Folder.timesWhole, Bool.and_eq_true] at h
  obtain ⟨h1, h2, h3, h4, h5, h6, h7⟩ := h
  simp [Folder.marshalJSON, Folder.unmarshalInto, Folder.zero,
        lookup_omitNone_ne, lookup_omitNone_self,
        decField_encStr, decField_encInt, decField_encBool, decTimeOpt_enc,
        decObjOpt_enc_permission, decObjOpt_enc_entity, decObjOpt_enc_collection,
        decObjOpt_enc_shared, decObjOpt_enc_uploadEmail, decList_enc_str,
        h1, h2, h3, h4, h5, h6, h7, exceptBind_ok, exceptPure]

/-! ## Helper lemmas: request traces -/

/-- `doRequest` hands exactly one request to `Client.Do` when
`http.NewRequest` succeeds, and none when it fails. -/
theorem doRequest_sent_length {B : Type} (box : Box) (env : HttpEnv B)
    (m p : String) (ps : Option Values) (rb : Option Json) :
    (Box.doRequest box env m p ps rb).sent.length =
      if env.reqErr = none then 1 else 0 := by
  unfold Box.doRequest
  cases henv : env.reqErr with
  | some e => simp [henv]
  | none =>
    cases hs : env.sendResult with
    | error e => simp [henv]
    | ok r => cases hg : getResponse r <;> simp [henv, hs, hg]

/-- Every request in a `doRequest` trace is the one `doRequest`
built, sent through `box.client()`. -/
theorem doRequest_sent_mem {B : Type} (box : Box) (env : HttpEnv B)
    (m p : String) (ps : Option Values) (rb : Option Json)
    (cr : Client × Request) (h : cr ∈ (Box.doRequest box env m p ps rb).sent) :
    cr = (box.client,
      { method := m, url := box.rawURL p ps, body := reqBodyOf rb }) := by
  unfold Box.doRequest at h
  cases henv : env.reqErr with
  | some e => simp [henv] at h
  | none =>
    cases hs : env.sendResult with
    | error e =>
      simp [henv, hs] at h
      simp [h]
    | ok r =>
      cases hg : getResponse r <;> simp [henv, hs, hg] at h <;> simp [h]

/-- Requests sent by `File.Get`: none on the empty-id guard,
otherwise those of its single `doRequest`. -/
theorem fileGet_sent (f : File) (box : Box) (env : HttpEnv Json) :
    (File.get f box env).sent = if f.Id = "" then []
      else (Box.doRequest box env "GET" ("files/" ++ f.Id) none none).sent := by
  unfold File.get
  split_ifs with h
  · rfl
  · rcases hres : (Box.doRequest box env "GET" ("files/" ++ f.Id) none
        (none : Option Json)).result with e | b
    · simp [hres]
    · rcases hum : File.unmarshalInto f b with e2 | f2 <;> simp [hres, hum]

/-- Requests sent by `File.Delete`. -/
theorem fileDelete_sent (f : File) (box : Box) (env : HttpEnv Json) :
    (File.delete f box env).sent = if f.Id = "" then []
      else (Box.doRequest box env "DELETE" ("files/" ++ f.Id) none none).sent := by
  unfold File.delete
  split_ifs with h <;> rfl

/-- Requests sent by `File.Rename`. -/
theorem fileRename_sent (f : File) (box : Box) (env : HttpEnv Json) (name : String) :
    (File.rename f box env name).sent = if f.Id = "" then []
      else (Box.doRequest box env "PUT" ("files/" ++ f.Id) none
        (some (File.marshalJSON { File.zero with Name := name }))).sent := by
  unfold File.rename
  split_ifs with h
  · rfl
  · rcases hres : (Box.doRequest box env "PUT" ("files/" ++ f.Id) none
        (some (File.marshalJSON { File.zero with Name := name }))).result with e | b
    · simp [hres]
    · rcases hum : File.unmarshalInto f b with e2 | f2 <;> simp [hres, hum]

/-- Requests sent by `File.Move`. -/
theorem fileMove_sent (f : File) (box : Box) (env : HttpEnv Json) (parent : Folder) :
    (File.move f box env parent).sent = if f.Id = "" ∨ parent.Id = "" then []
      else (Box.doRequest box env "PUT" ("files/" ++ f.Id) none
        (some (File.marshalJSON
          { File.zero with Parent := some { Entity.zero with Id := parent.Id } }))).sent := by
  unfold File.move
  split_ifs with h
  · rfl
  · rcases hres : (Box.doRequest box env "PUT" ("files/" ++ f.Id) none
        (some (File.marshalJSON
          { File.zero with Parent := some { Entity.zero with Id := parent.Id } }))).result
      with e | b
    · simp [hres]
    · rcases hum : File.unmarshalInto f b with e2 | f2 <;> simp [hres, hum]

/-- Requests sent by `File.Copy`. -/
theorem fileCopy_sent (f : File) (box : Box) (env : HttpEnv Json) (parent : Folder) :
    (File.copy f box env parent).sent = if f.Id = "" ∨ parent.Id = "" then []
      else (Box.doRequest box env "POST" ("files/" ++ f.Id ++ "/copy") none
        (some (File.marshalJSON
          { File.zero with Parent := some { Entity.zero with Id := parent.Id } }))).sent := by
  unfold File.copy
  split_ifs with h
  · rfl
  · rcases hres : (Box.doRequest box env "POST" ("files/" ++ f.Id ++ "/copy") none
        (some (File.marshalJSON
          { File.zero with Parent := some { Entity.zero with Id := parent.Id } }))).result
      with e | b
    · simp [hres]
    · rcases hum : File.unmarshalInto
          { File.zero with Parent := some { Entity.zero with Id := parent.Id } } b
        with e2 | f2 <;> simp [hres, hum]

/-- Requests sent by `Folder.Create`. -/
theorem folderCreate_sent (f : Folder) (box : Box) (env : HttpEnv Json) (name : String) :
    (Folder.create f box env name).sent = if f.Id = "" then []
      else (Box.doRequest box env "POST" "folders" none
        (some (Folder.marshalJSON
          { Folder.zero with Name := name, Parent := some { Entity.zero with Id := f.Id } }))).sent := by
  unfold Folder.create
  split_ifs with h
  · rfl
  · rcases hres : (Box.doRequest box env "POST" "folders" none
        (some (Folder.marshalJSON
          { Folder.zero with Name := name, Parent := some { Entity.zero with Id := f.Id } }))).result with e | b
    · simp [hres]
    · rcases hum : Folder.unmarshalInto
          { Folder.zero with Name := name, Parent := some { Entity.zero with Id := f.Id } } b
        with e2 | f2 <;> simp [hres, hum]

/-- Requests sent by `Folder.Get`. -/
theorem folderGet_sent (f : Folder) (box : Box) (env : HttpEnv Json) :
    (Folder.get f box env).sent = if f.Id = "" then []
      else (Box.doRequest box env "GET" ("folders/" ++ f.Id) none none).sent := by
  unfold Folder.get
  split_ifs with h
  · rfl
  · rcases hres : (Box.doRequest box env "GET" ("folders/" ++ f.Id) none
        (none : Option Json)).result with e | b
    · simp [hres]
    · rcases hum : Folder.unmarshalInto f b with e2 | f2 <;> simp [hres, hum]

/-- Requests sent by `Folder.Delete`. -/
theorem folderDelete_sent (f : Folder) (box : Box) (env : HttpEnv Json) :
    (Folder.delete f box env).sent = if f.Id = "" then []
      else (Box.doRequest box env "DELETE" ("folders/" ++ f.Id)
        (some { pairs := [("recursive", ["true"])] }) none).sent := by
  unfold Folder.delete
  split_ifs with h <;> rfl

/-- Requests sent by `Folder.Rename`. -/
theorem folderRename_sent (f : Folder) (box : Box) (env : HttpEnv Json) (name : String) :
    (Folder.rename f box env name).sent = if f.Id = "" then []
      else (Box.doRequest box env "PUT" ("folders/" ++ f.Id) none
        (some (Folder.marshalJSON { Folder.zero with Name := name }))).sent := by
  unfold Folder.rename
  split_ifs with h
  · rfl
  · rcases hres : (Box.doRequest box env "PUT" ("folders/" ++ f.Id) none
        (some (Folder.marshalJSON { Folder.zero with Name := name }))).result with e | b
    · simp [hres]
    · rcases hum : Folder.unmarshalInto f b with e2 | f2 <;> simp [hres, hum]

/-- Requests sent by `Folder.Move`. -/
theorem folderMove_sent (f : Folder) (box : Box) (env : HttpEnv Json) (parent : Folder) :
    (Folder.move f box env parent).sent = if f.Id = "" ∨ parent.Id = "" then []
      else (Box.doRequest box env "PUT" ("folders/" ++ f.Id) none
        (some (Folder.marshalJSON
          { Folder.zero with Parent := some { Entity.zero with Id := parent.Id } }))).sent := by
  unfold Folder.move
  split_ifs with h
  · rfl
  · rcases hres : (Box.doRequest box env "PUT" ("folders/" ++ f.Id) none
        (some (Folder.marshalJSON
          { Folder.zero with Parent := some { Entity.zero with Id := parent.Id } }))).result
      with e | b
    · simp [hres]
    · rcases hum : Folder.unmarshalInto f b with e2 | f2 <;> simp [hres, hum]

/-- Requests sent by `Folder.Copy`. -/
theorem folderCopy_sent (f : Folder) (box : Box) (env : HttpEnv Json) (parent : Folder) :
    (Folder.copy f box env parent).sent = if f.Id = "" ∨ parent.Id = "" then []
      else (Box.doRequest box env "POST" ("folders/" ++ f.Id ++ "/copy") none
        (some (Folder.marshalJSON
          { Folder.zero with Parent := some { Entity.zero with Id := parent.Id } }))).sent := by
  unfold Folder.copy
  split_ifs with h
  · rfl
  · rcases hres : (Box.doRequest box env "POST" ("folders/" ++ f.Id ++ "/copy") none
        (some (Folder.marshalJSON
          { Folder.zero with Parent := some { Entity.zero with Id := parent.Id } }))).result
      with e | b
    · simp [hres]
    · rcases hum : Folder.unmarshalInto
          { Folder.zero with Parent := some { Entity.zero with Id := parent.Id } } b
        with e2 | f2 <;> simp [hres, hum]

/-- Requests sent by `Box.DeleteFolder`: those of its single
`doRequest`. -/
theorem boxDeleteFolder_sent (box : Box) (env : HttpEnv Json) (id : String) :
    (Box.deleteFolder box env id).1 =
      (Box.doRequest box env "DELETE" ("folders/" ++ id)
        (some { pairs := [("recursive", ["true"])] }) none).sent := rfl

/-- Every request in a `UploadFile` trace is the single multipart
POST, sent through `box.client()`. -/
theorem fileUpload_sent_mem (f : File) (box : Box) (env : UploadEnv)
    (path : String) (parent : Folder) (cr : Client × Request)
    (h : cr ∈ (File.uploadFile f box env path parent).sent) :
    cr = (box.client,
      { method := "POST", url := box.UPLOADURL ++ "/files/content",
        body := .multipart
          { filename := filepathBase path, contents := env.fileContents,
            parentId := parent.Id,
            contentModifiedAt := BoxTime.marshalJSON env.modTime } }) := by
  unfold File.uploadFile at h
  cases h1 : env.openErr with
  | some e => simp [h1] at h
  | none =>
  cases h2 : env.createFormFileErr with
  | some e => simp [h1, h2] at h
  | none =>
  cases h3 : env.closeErr with
  | some e => simp [h1, h2, h3] at h
  | none =>
  cases h4 : env.reqErr with
  | some e => simp [h1, h2, h3, h4] at h
  | none =>
  cases h5 : env.sendResult with
  | error e =>
    simp [h1, h2, h3, h4, h5] at h
    simp [h]
  | ok r =>
  cases h6 : getResponse r with
  | error e =>
    simp [h1, h2, h3, h4, h5, h6] at h
    simp [h]
  | ok rb =>
    cases h7 : File.unmarshalInto f rb <;>
      simp [h1, h2, h3, h4, h5, h6, h7] at h <;> simp [h]

/-- `UploadFile` hands at most one request to `Client.Do`. -/
theorem fileUpload_sent_length (f : File) (box : Box) (env : UploadEnv)
    (path : String) (parent : Folder) :
    (File.uploadFile f box env path parent).sent.length ≤ 1 := by
  unfold File.uploadFile
  cases h1 : env.openErr with
  | some e => simp
  | none =>
  cases h2 : env.createFormFileErr with
  | some e => simp
  | none =>
  cases h3 : env.closeErr with
  | some e => simp
  | none =>
  cases h4 : env.reqErr with
  | some e => simp
  | none =>
  cases h5 : env.sendResult with
  | error e => simp
  | ok r =>
  cases h6 : getResponse r with
  | error e => simp [h5, h6]
  | ok rb => cases h7 : File.unmarshalInto f rb <;> simp [h5, h6, h7]

/-- Decidable equality of `Except` values (Go `(value, error)`
results), used to evaluate the embedding at concrete inputs. -/
instance {ε α : Type} [DecidableEq ε] [DecidableEq α] : DecidableEq (Except ε α) := fun a b => by
  cases a <;> cases b
  case error.error e f => exact decidable_of_iff (e = f) (by simp)
  case error.ok e v => exact Decidable.isFalse (by simp)
  case ok.error v e => exact Decidable.isFalse (by simp)
  case ok.ok v w => exact decidable_of_iff (v = w) (by simp)

/-! ## The claims -/

/-- C3: for every HTTP status code, `toError` returns a `BoxError`
whose `StatusCode` equals the input status; each status in the fixed
table (200, 201, 202, 204, 302, 304, 401, 403, 404, 405, 409, 412,
429, 500, 503) maps to its listed sentinel error value, and any
status outside the table produces the generic `"Unknown error"`
`BoxError` carrying that status code. -/
theorem toError_status_table :
    (∀ s : Int, (toError s).StatusCode = s) ∧
    (toError 200 = SUCCESS ∧ toError 201 = CREATED ∧ toError 202 = ACCEPTED ∧
      toError 204 = NO_CONTENT ∧ toError 302 = REDIRECT ∧
      toError 304 = NOT_MODIFIED ∧ toError 401 = UNAUTHORIZED ∧
      toError 403 = FORBIDDEN ∧ toError 404 = NOT_FOUND ∧
      toError 405 = NOT_ALLOWED ∧ toError 409 = CONFLICT ∧
      toError 412 = PRECONDITION_FAILED ∧ toError 429 = TOO_MANY_REQUESTS ∧
      toError 500 = SERVER_ERROR ∧ toError 503 = UNAVAILABLE) ∧
    (∀ s : Int,
      s ∉ ([200, 201, 202, 204, 302, 304, 401, 403, 404, 405, 409, 412,
            429, 500, 503] : List Int) →
      toError s = { StatusCode := s, Message := "Unknown error" }) := by
  have generic : ∀ s : Int, s ≠ 200 → s ≠ 201 → s ≠ 202 → s ≠ 204 → s ≠ 302 →
      s ≠ 304 → s ≠ 401 → s ≠ 403 → s ≠ 404 → s ≠ 405 → s ≠ 409 → s ≠ 412 →
      s ≠ 429 → s ≠ 500 → s ≠ 503 →
      toError s = { StatusCode := s, Message := "Unknown error" } := by
    intro s n1 n2 n3 n4 n5 n6 n7 n8 n9 n10 n11 n12 n13 n14 n15
    unfold toError
    rw [if_neg n1, if_neg n2, if_neg n3, if_neg n4, if_neg n5, if_neg n6,
        if_neg n7, if_neg n8, if_neg n9, if_neg n10, if_neg n11, if_neg n12,
        if_neg n13, if_neg n14, if_neg n15]
  refine ⟨?_, by decide, ?_⟩
  · intro s
    rcases eq_or_ne s 200 with rfl | n1
    · rfl
    rcases eq_or_ne s 201 with rfl | n2
    · rfl
    rcases eq_or_ne s 202 with rfl | n3
    · rfl
    rcases eq_or_ne s 204 with rfl | n4
    · rfl
    rcases eq_or_ne s 302 with rfl | n5
    · rfl
    rcases eq_or_ne s 304 with rfl | n6
    · rfl
    rcases eq_or_ne s 401 with rfl | n7
    · rfl
    rcases eq_or_ne s 403 with rfl | n8
    · rfl
    rcases eq_or_ne s 404 with rfl | n9
    · rfl
    rcases eq_or_ne s 405 with rfl | n10
    · rfl
    rcases eq_or_ne s 409 with rfl | n11
    · rfl
    rcases eq_or_ne s 412 with rfl | n12
    · rfl
    rcases eq_or_ne s 429 with rfl | n13
    · rfl
    rcases eq_or_ne s 500 with rfl | n14
    · rfl
    rcases eq_or_ne s 503 with rfl | n15
    · rfl
    rw [generic s n1 n2 n3 n4 n5 n6 n7 n8 n9 n10 n11 n12 n13 n14 n15]
  · intro s h
    simp only [List.mem_cons, List.not_mem_nil, or_false, not_or] at h
    obtain ⟨n1, n2, n3, n4, n5, n6, n7, n8, n9, n10, n11, n12, n13, n14, n15⟩ := h
    exact generic s n1 n2 n3 n4 n5 n6 n7 n8 n9 n10 n11 n12 n13 n14 n15

/-- Witness for C3: the untabled status 418 produces the generic
error carrying 418. -/
theorem toError_status_table_witness :
    toError 418 = { StatusCode := 418, Message := "Unknown error" } :=
  toError_status_table.2.2 418 (by decide)

/-- C1 counterexample: 204 is a 2xx success code, yet `getResponse`
returns an error for it (the claim "body without error exactly when
2xx" fails at 204). -/
theorem getResponse_claim_fails_at_204 :
    ((200 : Int) ≤ 204 ∧ (204 : Int) < 300) ∧
    getResponse { statusCode := 204, bodyRead := .ok "body" } =
      (.error "unexpected HTTP status code 204" : Except GoError String) :=
  ⟨by decide, by decide⟩

/-- C1 (amended): given that reading the response body succeeds,
`getResponse` returns the body without error exactly when the status
code is 200, 201 or 202; every other status — 2xx codes such as 204
included — yields the `"unexpected HTTP status code"` error; a body
read failure is returned as that error. -/
theorem getResponse_ok_iff_success_trio :
    ∀ (B : Type) (s : Int) (b : B),
      (getResponse { statusCode := s, bodyRead := .ok b } = .ok b ↔
        s = 200 ∨ s = 201 ∨ s = 202) ∧
      (getResponse { statusCode := s, bodyRead := .ok b } = .ok b ∨
        getResponse { statusCode := s, bodyRead := .ok b } =
          .error ("unexpected HTTP status code " ++ toString s)) ∧
      (∀ e : GoError,
        getResponse (B := B) { statusCode := s, bodyRead := .error e } = .error e) := by
  intro B s b
  refine ⟨?_, ?_, fun e => rfl⟩
  · by_cases h : s = 200 ∨ s = 201 ∨ s = 202 <;> simp [getResponse, h]
  · by_cases h : s = 200 ∨ s = 201 ∨ s = 202 <;> simp [getResponse, h]

/-- Witness for C1: a 204 response with a readable body is not
returned as a success, and a read failure comes back verbatim. -/
theorem getResponse_ok_iff_success_trio_witness :
    getResponse { statusCode := 204, bodyRead := (.ok "b" : Except GoError String) } ≠
      .ok "b" ∧
    getResponse { statusCode := 200, bodyRead := (.error "read failed" : Except GoError String) } =
      .error "read failed" := by
  constructor
  · intro hcontra
    have h := (getResponse_ok_iff_success_trio String 204 "b").1.mp hcontra
    simp at h
  · exact (getResponse_ok_iff_success_trio String 200 "b").2.2 "read failed"

/-- C2: evaluation of the URL builder at the failing input.  The Go
code query-escapes the whole path, so the `/` separating the path
template from the substituted id is percent-encoded to `%2F` instead
of being preserved as a separator: `doRequest` aims `GET files/123`
at `.../files%2F123`, not `.../files/123`. -/
theorem rawURL_escapes_path_separator :
    Box.rawURL NewBox "files/123" none = "https://api.box.com/2.0/files%2F123" ∧
    urlEncode "files/123" = "files%2F123" ∧
    Box.rawURL NewBox "files/123" none ≠ "https://api.box.com/2.0/files/123" :=
  ⟨by decide, by decide, by decide⟩

/-- C10: `BoxTime.UnmarshalJSON` applied to nil input or to the JSON
literal `null` returns no error and leaves the receiver unchanged,
for every receiver value. -/
theorem boxtime_unmarshal_nil_and_null_noop :
    ∀ bt : GoTime,
      BoxTime.unmarshalJSON bt none = .ok bt ∧
      BoxTime.unmarshalJSON bt (some .null) = .ok bt :=
  fun _ => ⟨rfl, rfl⟩

/-- C7: every operation hands at most one request to `Client.Do` per
call; `doRequest` sends exactly one request whenever
`http.NewRequest` succeeds (and none at all when it fails, the only
way to send zero); no operation ever sends a second request after a
failure. -/
theorem single_request_per_call :
    (∀ (B : Type) (box : Box) (env : HttpEnv B) (method path : String)
        (params : Option Values) (reqBody : Option Json),
      (Box.doRequest box env method path params reqBody).sent.length ≤ 1 ∧
      ((Box.doRequest box env method path params reqBody).sent.length = 1 ↔
        env.reqErr = none)) ∧
    (∀ (f : File) (box : Box) (env : HttpEnv Json),
      (File.get f box env).sent.length ≤ 1) ∧
    (∀ (f : File) (box : Box) (env : HttpEnv Json),
      (File.delete f box env).sent.length ≤ 1) ∧
    (∀ (f : File) (box : Box) (env : HttpEnv Json) (name : String),
      (File.rename f box env name).sent.length ≤ 1) ∧
    (∀ (f : File) (box : Box) (env : HttpEnv Json) (parent : Folder),
      (File.move f box env parent).sent.length ≤ 1) ∧
    (∀ (f : File) (box : Box) (env : HttpEnv Json) (parent : Folder),
      (File.copy f box env parent).sent.length ≤ 1) ∧
    (∀ (f : File) (box : Box) (env : UploadEnv) (path : String) (parent : Folder),
      (File.uploadFile f box env path parent).sent.length ≤ 1) ∧
    (∀ (f : Folder) (box : Box) (env : HttpEnv Json) (name : String),
      (Folder.create f box env name).sent.length ≤ 1) ∧
    (∀ (f : Folder) (box : Box) (env : HttpEnv Json),
      (Folder.get f box env).sent.length ≤ 1) ∧
    (∀ (f : Folder) (box : Box) (env : HttpEnv Json),
      (Folder.delete f box env).sent.length ≤ 1) ∧
    (∀ (f : Folder) (box : Box) (env : HttpEnv Json) (name : String),
      (Folder.rename f box env name).sent.length ≤ 1) ∧
    (∀ (f : Folder) (box : Box) (env : HttpEnv Json) (parent : Folder),
      (Folder.move f box env parent).sent.length ≤ 1) ∧
    (∀ (f : Folder) (box : Box) (env : HttpEnv Json) (parent : Folder),
      (Folder.copy f box env parent).sent.length ≤ 1) ∧
    (∀ (box : Box) (env : HttpEnv Json) (id : String),
      (Box.deleteFolder box env id).1.length ≤ 1) := by
  refine ⟨?_, ?_, ?_, ?_, ?_, ?_, ?_, ?_, ?_, ?_, ?_, ?_, ?_, ?_⟩
  · intro B box env m p ps rb
    rw [doRequest_sent_length]
    constructor
    · split_ifs <;> simp
    · split_ifs with h <;> simp [h]
  · intro f box env
    rw [fileGet_sent]
    split_ifs
    · simp
    · rw [doRequest_sent_length]
      split_ifs <;> simp
  · intro f box env
    rw [fileDelete_sent]
    split_ifs
    · simp
    · rw [doRequest_sent_length]
      split_ifs <;> simp
  · intro f box env name
    rw [fileRename_sent]
    split_ifs
    · simp
    · rw [doRequest_sent_length]
      split_ifs <;> simp
  · intro f box env parent
    rw [fileMove_sent]
    split_ifs
    · simp
    · rw [doRequest_sent_length]
      split_ifs <;> simp
  · intro f box env parent
    rw [fileCopy_sent]
    split_ifs
    · simp
    · rw [doRequest_sent_length]
      split_ifs <;> simp
  · intro f box env path parent
    exact fileUpload_sent_length f box env path parent
  · intro f box env name
    rw [folderCreate_sent]
    split_ifs
    · simp
    · rw [doRequest_sent_length]
      split_ifs <;> simp
  · intro f box env
    rw [folderGet_sent]
    split_ifs
    · simp
    · rw [doRequest_sent_length]
      split_ifs <;> simp
  · intro f box env
    rw [folderDelete_sent]
    split_ifs
    · simp
    · rw [doRequest_sent_length]
      split_ifs <;> simp
  · intro f box env name
    rw [folderRename_sent]
    split_ifs
    · simp
    · rw [doRequest_sent_length]
      split_ifs <;> simp
  · intro f box env parent
    rw [folderMove_sent]
    split_ifs
    · simp
    · rw [doRequest_sent_length]
      split_ifs <;> simp
  · intro f box env parent
    rw [folderCopy_sent]
    split_ifs
    · simp
    · rw [doRequest_sent_length]
      split_ifs <;> simp
  · intro box env id
    rw [boxDeleteFolder_sent, doRequest_sent_length]
    split_ifs <;> simp

/-- Witness for C7: a concrete `doRequest` run whose request
construction succeeds sends exactly one request. -/
theorem single_request_per_call_witness :
    (Box.doRequest NewBox
      { reqErr := none, sendResult := (.error "refused" : Except GoError (Response String)) }
      "GET" "files/1" none none).sent.length = 1 :=
  (single_request_per_call.1 String NewBox
    { reqErr := none, sendResult := .error "refused" } "GET" "files/1" none none).2.mpr rfl

/-- C6: every request handed to `Client.Do` — by `doRequest` and by
`UploadFile` — goes through the client `box.client()` builds, whose
OAuth transport carries `box.token` (the bearer access token held by
the Box object). -/
theorem bearer_token_attached :
    (∀ (B : Type) (box : Box) (env : HttpEnv B) (method path : String)
        (params : Option Values) (reqBody : Option Json) (cr : Client × Request),
      cr ∈ (Box.doRequest box env method path params reqBody).sent →
      cr.1 = box.client ∧ cr.1.token = box.token) ∧
    (∀ (f : File) (box : Box) (env : UploadEnv) (path : String) (parent : Folder)
        (cr : Client × Request),
      cr ∈ (File.uploadFile f box env path parent).sent →
      cr.1 = box.client ∧ cr.1.token = box.token) := by
  constructor
  · intro B box env m p ps rb cr h
    have hcr := doRequest_sent_mem box env m p ps rb cr h
    subst hcr
    exact ⟨rfl, rfl⟩
  · intro f box env path parent cr h
    have hcr := fileUpload_sent_mem f box env path parent cr h
    subst hcr
    exact ⟨rfl, rfl⟩

/-- Witness for C6: the client of the one request a concrete
`doRequest` run sends carries the box's token. -/
theorem bearer_token_attached_witness :
    (Box.client NewBox).token = NewBox.token :=
  (bearer_token_attached.1 String NewBox
    { reqErr := none, sendResult := .error "refused" } "GET" "files/7" none none
    (Box.client NewBox,
      { method := "GET", url := Box.rawURL NewBox "files/7" none, body := reqBodyOf none })
    (List.Mem.head _)).2

/-- C5 counterexample: when `doRequest` succeeds but JSON
unmarshalling fails, `File.Copy` returns the unmarshal error together
with a NON-nil result pointer (`return &file, err`), so "returns
exactly that error with a nil result" fails as stated. -/
theorem copy_unmarshal_error_nonnil_result :
    (File.copy { File.zero with Id := "1" } NewBox
        { reqErr := none,
          sendResult := .ok { statusCode := 200, bodyRead := .ok (Json.num 5) } }
        { Folder.zero with Id := "2" }).err = some "json: cannot unmarshal into File" ∧
    (File.copy { File.zero with Id := "1" } NewBox
        { reqErr := none,
          sendResult := .ok { statusCode := 200, bodyRead := .ok (Json.num 5) } }
        { Folder.zero with Id := "2" }).ret ≠ none :=
  ⟨by decide, by decide⟩

/-- C5 (amended): every failure of request construction, of the HTTP
exchange, of the status-code check, or of JSON unmarshalling is
returned to the caller verbatim, never recovered from or replaced —
by `doRequest` (which pairs the error with a nil byte slice), by
every `File` method (`Get`, `Delete`, `Rename`, `Move`, `Copy`,
`UploadFile`), by every `Folder` method (`Create`, `Get`, `Delete`,
`Rename`, `Move`, `Copy`) and by `Box.DeleteFolder`.  Methods return
a nil result pointer on every failure that precedes unmarshalling —
but `File.Copy`, `Folder.Copy` and `Folder.Create` return their
local, partially populated result pointer (non-nil,
`return &file, err`) alongside a verbatim unmarshal error. -/
theorem errors_propagate_verbatim :
    (∀ (B : Type) (box : Box) (env : HttpEnv B) (method path : String)
        (params : Option Values) (reqBody : Option Json) (e : GoError),
      (env.reqErr = some e →
        (Box.doRequest box env method path params reqBody).result = .error e) ∧
      (env.reqErr = none → env.sendResult = .error e →
        (Box.doRequest box env method path params reqBody).result = .error e) ∧
      (∀ r, env.reqErr = none → env.sendResult = .ok r → getResponse r = .error e →
        (Box.doRequest box env method path params reqBody).result = .error e)) ∧
    (∀ (f : File) (box : Box) (env : HttpEnv Json) (e : GoError), f.Id ≠ "" →
      ((Box.doRequest box env "GET" ("files/" ++ f.Id) none none).result = .error e →
        (File.get f box env).err = some e) ∧
      (∀ b, (Box.doRequest box env "GET" ("files/" ++ f.Id) none none).result = .ok b →
        File.unmarshalInto f b = .error e →
        (File.get f box env).err = some e)) ∧
    (∀ (f : File) (box : Box) (env : HttpEnv Json) (e : GoError), f.Id ≠ "" →
      (Box.doRequest box env "DELETE" ("files/" ++ f.Id) none none).result = .error e →
      (File.delete f box env).err = some e) ∧
    (∀ (f : File) (box : Box) (env : HttpEnv Json) (name : String) (e : GoError),
      f.Id ≠ "" →
      ((Box.doRequest box env "PUT" ("files/" ++ f.Id) none
          (some (File.marshalJSON { File.zero with Name := name }))).result = .error e →
        (File.rename f box env name).err = some e) ∧
      (∀ b, (Box.doRequest box env "PUT" ("files/" ++ f.Id) none
          (some (File.marshalJSON { File.zero with Name := name }))).result = .ok b →
        File.unmarshalInto f b = .error e →
        (File.rename f box env name).err = some e)) ∧
    (∀ (f : File) (box : Box) (env : HttpEnv Json) (parent : Folder) (e : GoError),
      ¬(f.Id = "" ∨ parent.Id = "") →
      ((Box.doRequest box env "PUT" ("files/" ++ f.Id) none
          (some (File.marshalJSON
            { File.zero with Parent := some { Entity.zero with Id := parent.Id } }))).result =
          .error e →
        (File.move f box env parent).err = some e) ∧
      (∀ b, (Box.doRequest box env "PUT" ("files/" ++ f.Id) none
          (some (File.marshalJSON
            { File.zero with Parent := some { Entity.zero with Id := parent.Id } }))).result =
          .ok b →
        File.unmarshalInto f b = .error e →
        (File.move f box env parent).err = some e)) ∧
    (∀ (f : File) (box : Box) (env : HttpEnv Json) (parent : Folder) (e : GoError),
      ¬(f.Id = "" ∨ parent.Id = "") →
      (Box.doRequest box env "POST" ("files/" ++ f.Id ++ "/copy") none
          (some (File.marshalJSON
            { File.zero with Parent := some { Entity.zero with Id := parent.Id } }))).result =
        .error e →
      (File.copy f box env parent).err = some e ∧
      (File.copy f box env parent).ret = none) ∧
    (∀ (f : File) (box : Box) (env : HttpEnv Json) (parent : Folder) (e : GoError)
        (b : Json),
      ¬(f.Id = "" ∨ parent.Id = "") →
      (Box.doRequest box env "POST" ("files/" ++ f.Id ++ "/copy") none
          (some (File.marshalJSON
            { File.zero with Parent := some { Entity.zero with Id := parent.Id } }))).result =
        .ok b →
      File.unmarshalInto
          { File.zero with Parent := some { Entity.zero with Id := parent.Id } } b =
        .error e →
      (File.copy f box env parent).err = some e ∧
      (File.copy f box env parent).ret =
        some { File.zero with Parent := some { Entity.zero with Id := parent.Id } }) ∧
    (∀ (f : File) (box : Box) (env : UploadEnv) (path : String) (parent : Folder)
        (e : GoError),
      (env.openErr = some e → (File.uploadFile f box env path parent).err = some e) ∧
      (env.openErr = none → env.createFormFileErr = some e →
        (File.uploadFile f box env path parent).err = some e) ∧
      (env.openErr = none → env.createFormFileErr = none → env.closeErr = some e →
        (File.uploadFile f box env path parent).err = some e) ∧
      (env.openErr = none → env.createFormFileErr = none → env.closeErr = none →
        env.reqErr = some e → (File.uploadFile f box env path parent).err = some e) ∧
      (env.openErr = none → env.createFormFileErr = none → env.closeErr = none →
        env.reqErr = none → env.sendResult = .error e →
        (File.uploadFile f box env path parent).err = some e) ∧
      (∀ r, env.openErr = none → env.createFormFileErr = none → env.closeErr = none →
        env.reqErr = none → env.sendResult = .ok r → getResponse r = .error e →
        (File.uploadFile f box env path parent).err = some e) ∧
      (∀ r b, env.openErr = none → env.createFormFileErr = none → env.closeErr = none →
        env.reqErr = none → env.sendResult = .ok r → getResponse r = .ok b →
        File.unmarshalInto f b = .error e →
        (File.uploadFile f box env path parent).err = some e)) ∧
    (∀ (f : Folder) (box : Box) (env : HttpEnv Json) (name : String) (e : GoError),
      f.Id ≠ "" →
      (Box.doRequest box env "POST" "folders" none
          (some (Folder.marshalJSON { Folder.zero with Name := name, Parent := some { Entity.zero with Id := f.Id } }))).result =
        .error e →
      (Folder.create f box env name).err = some e ∧
      (Folder.create f box env name).ret = none) ∧
    (∀ (f : Folder) (box : Box) (env : HttpEnv Json) (name : String) (e : GoError)
        (b : Json),
      f.Id ≠ "" →
      (Box.doRequest box env "POST" "folders" none
          (some (Folder.marshalJSON { Folder.zero with Name := name, Parent := some { Entity.zero with Id := f.Id } }))).result =
        .ok b →
      Folder.unmarshalInto
          { Folder.zero with Name := name, Parent := some { Entity.zero with Id := f.Id } } b =
        .error e →
      (Folder.create f box env name).err = some e ∧
      (Folder.create f box env name).ret =
        some { Folder.zero with Name := name, Parent := some { Entity.zero with Id := f.Id } }) ∧
    (∀ (f : Folder) (box : Box) (env : HttpEnv Json) (e : GoError), f.Id ≠ "" →
      ((Box.doRequest box env "GET" ("folders/" ++ f.Id) none none).result = .error e →
        (Folder.get f box env).err = some e) ∧
      (∀ b, (Box.doRequest box env "GET" ("folders/" ++ f.Id) none none).result = .ok b →
        Folder.unmarshalInto f b = .error e →
        (Folder.get f box env).err = some e)) ∧
    (∀ (f : Folder) (box : Box) (env : HttpEnv Json) (e : GoError), f.Id ≠ "" →
      (Box.doRequest box env "DELETE" ("folders/" ++ f.Id)
          (some { pairs := [("recursive", ["true"])] }) none).result = .error e →
      (Folder.delete f box env).err = some e) ∧
    (∀ (f : Folder) (box : Box) (env : HttpEnv Json) (name : String) (e : GoError),
      f.Id ≠ "" →
      ((Box.doRequest box env "PUT" ("folders/" ++ f.Id) none
          (some (Folder.marshalJSON { Folder.zero with Name := name }))).result = .error e →
        (Folder.rename f box env name).err = some e) ∧
      (∀ b, (Box.doRequest box env "PUT" ("folders/" ++ f.Id) none
          (some (Folder.marshalJSON { Folder.zero with Name := name }))).result = .ok b →
        Folder.unmarshalInto f b = .error e →
        (Folder.rename f box env name).err = some e)) ∧
    (∀ (f : Folder) (box : Box) (env : HttpEnv Json) (parent : Folder) (e : GoError),
      ¬(f.Id = "" ∨ parent.Id = "") →
      ((Box.doRequest box env "PUT" ("folders/" ++ f.Id) none
          (some (Folder.marshalJSON
            { Folder.zero with Parent := some { Entity.zero with Id := parent.Id } }))).result =
          .error e →
        (Folder.move f box env parent).err = some e) ∧
      (∀ b, (Box.doRequest box env "PUT" ("folders/" ++ f.Id) none
          (some (Folder.marshalJSON
            { Folder.zero with Parent := some { Entity.zero with Id := parent.Id } }))).result =
          .ok b →
        Folder.unmarshalInto f b = .error e →
        (Folder.move f box env parent).err = some e)) ∧
    (∀ (f : Folder) (box : Box) (env : HttpEnv Json) (parent : Folder) (e : GoError),
      ¬(f.Id = "" ∨ parent.Id = "") →
      (Box.doRequest box env "POST" ("folders/" ++ f.Id ++ "/copy") none
          (some (Folder.marshalJSON
            { Folder.zero with Parent := some { Entity.zero with Id := parent.Id } }))).result =
        .error e →
      (Folder.copy f box env parent).err = some e ∧
      (Folder.copy f box env parent).ret = none) ∧
    (∀ (f : Folder) (box : Box) (env : HttpEnv Json) (parent : Folder) (e : GoError)
        (b : Json),
      ¬(f.Id = "" ∨ parent.Id = "") →
      (Box.doRequest box env "POST" ("folders/" ++ f.Id ++ "/copy") none
          (some (Folder.marshalJSON
            { Folder.zero with Parent := some { Entity.zero with Id := parent.Id } }))).result =
        .ok b →
      Folder.unmarshalInto
          { Folder.zero with Parent := some { Entity.zero with Id := parent.Id } } b =
        .error e →
      (Folder.copy f box env parent).err = some e ∧
      (Folder.copy f box env parent).ret =
        some { Folder.zero with Parent := some { Entity.zero with Id := parent.Id } }) ∧
    (∀ (box : Box) (env : HttpEnv Json) (id : String) (e : GoError),
      (Box.doRequest box env "DELETE" ("folders/" ++ id)
          (some { pairs := [("recursive", ["true"])] }) none).result = .error e →
      (Box.deleteFolder box env id).2 = some e) := by
  refine ⟨?_, ?_, ?_, ?_, ?_, ?_, ?_, ?_, ?_, ?_, ?_, ?_, ?_, ?_, ?_, ?_, ?_⟩
  · intro B box env m p ps rb e
    refine ⟨?_, ?_, ?_⟩
    · intro h
      simp [Box.doRequest, h]
    · intro h1 h2
      simp [Box.doRequest, h1, h2]
    · intro r h1 h2 h3
      simp [Box.doRequest, h1, h2, h3]
  · intro f box env e hid
    constructor
    · intro h
      simp [File.get, hid, h]
    · intro b h1 h2
      simp [File.get, hid, h1, h2]
  · intro f box env e hid h
    simp [File.delete, hid, h]
  · intro f box env name e hid
    constructor
    · intro h
      simp [File.rename, hid, h]
    · intro b h1 h2
      simp [File.rename, hid, h1, h2]
  · intro f box env parent e hids
    constructor
    · intro h
      simp [File.move, hids, h]
    · intro b h1 h2
      simp [File.move, hids, h1, h2]
  · intro f box env parent e hids h
    constructor <;> simp [File.copy, hids, h]
  · intro f box env parent e b hids h1 h2
    constructor <;> simp [File.copy, hids, h1, h2]
  · intro f box env path parent e
    refine ⟨?_, ?_, ?_, ?_, ?_, ?_, ?_⟩
    · intro h1
      simp [File.uploadFile, h1]
    · intro h1 h2
      simp [File.uploadFile, h1, h2]
    · intro h1 h2 h3
      simp [File.uploadFile, h1, h2, h3]
    · intro h1 h2 h3 h4
      simp [File.uploadFile, h1, h2, h3, h4]
    · intro h1 h2 h3 h4 h5
      simp [File.uploadFile, h1, h2, h3, h4, h5]
    · intro r h1 h2 h3 h4 h5 h6
      simp [File.uploadFile, h1, h2, h3, h4, h5, h6]
    · intro r b h1 h2 h3 h4 h5 h6 h7
      simp [File.uploadFile, h1, h2, h3, h4, h5, h6, h7]
  · intro f box env name e hid h
    constructor <;> simp [Folder.create, hid, h]
  · intro f box env name e b hid h1 h2
    constructor <;> simp [Folder.create, hid, h1, h2]
  · intro f box env e hid
    constructor
    · intro h
      simp [Folder.get, hid, h]
    · intro b h1 h2
      simp [Folder.get, hid, h1, h2]
  · intro f box env e hid h
    simp [Folder.delete, hid, h]
  · intro f box env name e hid
    constructor
    · intro h
      simp [Folder.rename, hid, h]
    · intro b h1 h2
      simp [Folder.rename, hid, h1, h2]
  · intro f box env parent e hids
    constructor
    · intro h
      simp [Folder.move, hids, h]
    · intro b h1 h2
      simp [Folder.move, hids, h1, h2]
  · intro f box env parent e hids h
    constructor <;> simp [Folder.copy, hids, h]
  · intro f box env parent e b hids h1 h2
    constructor <;> simp [Folder.copy, hids, h1, h2]
  · intro box env id e h
    simp [Box.deleteFolder, h]

/-- Witness for C5: a concrete failing send comes back verbatim from
`doRequest` and from `File.Get`; a concrete unmarshal failure leaves
`File.Copy` with a non-nil result pointer and gives `Folder.Create`
the verbatim unmarshal error. -/
theorem errors_propagate_verbatim_witness :
    (Box.doRequest NewBox
      { reqErr := none,
        sendResult := (.error "connection refused" : Except GoError (Response Json)) }
      "GET" "files/9" none none).result = .error "connection refused" ∧
    (File.get { File.zero with Id := "9" } NewBox
      { reqErr := none, sendResult := .error "connection refused" }).err =
        some "connection refused" ∧
    (File.copy { File.zero with Id := "1" } NewBox
        { reqErr := none,
          sendResult := .ok { statusCode := 200, bodyRead := .ok (Json.num 5) } }
        { Folder.zero with Id := "2" }).ret =
      some { File.zero with Parent := some { Entity.zero with Id := "2" } } ∧
    (Folder.create { Folder.zero with Id := "7" } NewBox
        { reqErr := none,
          sendResult := .ok { statusCode := 200, bodyRead := .ok (Json.num 5) } }
        "sub").err = some "json: cannot unmarshal into Folder" := by
  refine ⟨?_, ?_, ?_, ?_⟩
  · exact (errors_propagate_verbatim.1 Json NewBox
      { reqErr := none, sendResult := .error "connection refused" }
      "GET" "files/9" none none "connection refused").2.1 rfl rfl
  · exact ((errors_propagate_verbatim.2.1 { File.zero with Id := "9" } NewBox
      { reqErr := none, sendResult := .error "connection refused" }
      "connection refused" (by decide)).1
      ((errors_propagate_verbatim.1 Json NewBox
        { reqErr := none, sendResult := .error "connection refused" }
        "GET" ("files/" ++ ({ File.zero with Id := "9" } : File).Id) none none
        "connection refused").2.1 rfl rfl))
  · exact (errors_propagate_verbatim.2.2.2.2.2.2.1 { File.zero with Id := "1" } NewBox
      { reqErr := none,
        sendResult := .ok { statusCode := 200, bodyRead := .ok (Json.num 5) } }
      { Folder.zero with Id := "2" } "json: cannot unmarshal into File" (Json.num 5)
      (by decide) rfl rfl).2
  · exact (errors_propagate_verbatim.2.2.2.2.2.2.2.2.2.1 { Folder.zero with Id := "7" }
      NewBox
      { reqErr := none,
        sendResult := .ok { statusCode := 200, bodyRead := .ok (Json.num 5) } }
      "sub" "json: cannot unmarshal into Folder" (Json.num 5)
      (by decide) rfl rfl).1


/-- C9: `Folder.Delete` (for every folder with a non-empty id) and
`Box.DeleteFolder` (for every id) send their DELETE request to
`folders/<id>` with the encoded query string `recursive=true`. -/
theorem folder_delete_recursive :
    (∀ (f : Folder) (box : Box) (env : HttpEnv Json), f.Id ≠ "" →
      ∀ cr ∈ (Folder.delete f box env).sent,
        (cr : Client × Request).2.method = "DELETE" ∧
        cr.2.url = box.APIURL ++ "/" ++ urlEncode ("folders/" ++ f.Id) ++
          "?recursive=true") ∧
    (∀ (id : String) (box : Box) (env : HttpEnv Json),
      ∀ cr ∈ (Box.deleteFolder box env id).1,
        (cr : Client × Request).2.method = "DELETE" ∧
        cr.2.url = box.APIURL ++ "/" ++ urlEncode ("folders/" ++ id) ++
          "?recursive=true") := by
  constructor
  · intro f box env hid cr hmem
    rw [folderDelete_sent, if_neg hid] at hmem
    have hcr := doRequest_sent_mem box env "DELETE" ("folders/" ++ f.Id)
      (some { pairs := [("recursive", ["true"])] }) none cr hmem
    subst hcr
    refine ⟨rfl, ?_⟩
    show Box.rawURL box ("folders/" ++ f.Id) (some { pairs := [("recursive", ["true"])] }) = _
    rw [show Box.rawURL box ("folders/" ++ f.Id)
          (some { pairs := [("recursive", ["true"])] }) =
        box.APIURL ++ "/" ++ urlEncode ("folders/" ++ f.Id) ++ "?" ++
          Values.encode { pairs := [("recursive", ["true"])] } from rfl,
       String.append_assoc _ "?"]
    congr 1
  · intro id box env cr hmem
    rw [boxDeleteFolder_sent] at hmem
    have hcr := doRequest_sent_mem box env "DELETE" ("folders/" ++ id)
      (some { pairs := [("recursive", ["true"])] }) none cr hmem
    subst hcr
    refine ⟨rfl, ?_⟩
    show Box.rawURL box ("folders/" ++ id) (some { pairs := [("recursive", ["true"])] }) = _
    rw [show Box.rawURL box ("folders/" ++ id)
          (some { pairs := [("recursive", ["true"])] }) =
        box.APIURL ++ "/" ++ urlEncode ("folders/" ++ id) ++ "?" ++
          Values.encode { pairs := [("recursive", ["true"])] } from rfl,
       String.append_assoc _ "?"]
    congr 1

/-- Witness for C9: the concrete URL of a `Folder.Delete` of folder
42 ends in `?recursive=true`. -/
theorem folder_delete_recursive_witness :
    ({ method := "DELETE",
       url := Box.rawURL NewBox ("folders/" ++ ({ Folder.zero with Id := "42" } : Folder).Id)
         (some { pairs := [("recursive", ["true"])] }),
       body := reqBodyOf none } : Request).url =
      NewBox.APIURL ++ "/" ++
        urlEncode ("folders/" ++ ({ Folder.zero with Id := "42" } : Folder).Id) ++
        "?recursive=true" :=
  (folder_delete_recursive.1 { Folder.zero with Id := "42" } NewBox
    { reqErr := none, sendResult := .error "refused" } (by decide)
    (Box.client NewBox,
      { method := "DELETE",
        url := Box.rawURL NewBox ("folders/" ++ ({ Folder.zero with Id := "42" } : Folder).Id)
          (some { pairs := [("recursive", ["true"])] }),
        body := reqBodyOf none })
    (List.Mem.head _)).2

/-- C8: every `File`/`Folder` method that needs an id a priori —
`Get`, `Delete`, `Rename`, `Move`, `Copy`, `Create` — returns an
error when the receiver's id (or, for `Move`/`Copy`, also the parent
folder's id) is the empty string, without handing any request to
`Client.Do` and with the receiver unchanged. -/
theorem empty_id_methods_no_request :
    (∀ (f : File) (box : Box) (env : HttpEnv Json), f.Id = "" →
      (File.get f box env).sent = [] ∧ (File.get f box env).receiver = f ∧
      (File.get f box env).err = some "Empty id while using Get") ∧
    (∀ (f : File) (box : Box) (env : HttpEnv Json), f.Id = "" →
      (File.delete f box env).sent = [] ∧ (File.delete f box env).receiver = f ∧
      (File.delete f box env).err = some "Empty id while using Delete") ∧
    (∀ (f : File) (box : Box) (env : HttpEnv Json) (name : String), f.Id = "" →
      (File.rename f box env name).sent = [] ∧
      (File.rename f box env name).receiver = f ∧
      (File.rename f box env name).err = some "Empty id while using Rename") ∧
    (∀ (f : File) (box : Box) (env : HttpEnv Json) (parent : Folder),
      f.Id = "" ∨ parent.Id = "" →
      (File.move f box env parent).sent = [] ∧
      (File.move f box env parent).receiver = f ∧
      (File.move f box env parent).err = some "Empty id while using Move") ∧
    (∀ (f : File) (box : Box) (env : HttpEnv Json) (parent : Folder),
      f.Id = "" ∨ parent.Id = "" →
      (File.copy f box env parent).sent = [] ∧
      (File.copy f box env parent).receiver = f ∧
      (File.copy f box env parent).err = some "Empty id while using Copy") ∧
    (∀ (f : Folder) (box : Box) (env : HttpEnv Json) (name : String), f.Id = "" →
      (Folder.create f box env name).sent = [] ∧
      (Folder.create f box env name).receiver = f ∧
      (Folder.create f box env name).err = some "Empty id while using Create") ∧
    (∀ (f : Folder) (box : Box) (env : HttpEnv Json), f.Id = "" →
      (Folder.get f box env).sent = [] ∧ (Folder.get f box env).receiver = f ∧
      (Folder.get f box env).err = some "Empty id while using Get") ∧
    (∀ (f : Folder) (box : Box) (env : HttpEnv Json), f.Id = "" →
      (Folder.delete f box env).sent = [] ∧ (Folder.delete f box env).receiver = f ∧
      (Folder.delete f box env).err = some "Empty id while using Delete") ∧
    (∀ (f : Folder) (box : Box) (env : HttpEnv Json) (name : String), f.Id = "" →
      (Folder.rename f box env name).sent = [] ∧
      (Folder.rename f box env name).receiver = f ∧
      (Folder.rename f box env name).err = some "Empty id while using Rename") ∧
    (∀ (f : Folder) (box : Box) (env : HttpEnv Json) (parent : Folder),
      f.Id = "" ∨ parent.Id = "" →
      (Folder.move f box env parent).sent = [] ∧
      (Folder.move f box env parent).receiver = f ∧
      (Folder.move f box env parent).err = some "Empty id while using Move") ∧
    (∀ (f : Folder) (box : Box) (env : HttpEnv Json) (parent : Folder),
      f.Id = "" ∨ parent.Id = "" →
      (Folder.copy f box env parent).sent = [] ∧
      (Folder.copy f box env parent).receiver = f ∧
      (Folder.copy f box env parent).err = some "Empty id while using Copy") := by
  refine ⟨?_, ?_, ?_, ?_, ?_, ?_, ?_, ?_, ?_, ?_, ?_⟩
  · intro f box env h
    simp [File.get, h]
  · intro f box env h
    simp [File.delete, h]
  · intro f box env name h
    simp [File.rename, h]
  · intro f box env parent h
    simp [File.move, h]
  · intro f box env parent h
    simp [File.copy, h]
  · intro f box env name h
    simp [Folder.create, h]
  · intro f box env h
    simp [Folder.get, h]
  · intro f box env h
    simp [Folder.delete, h]
  · intro f box env name h
    simp [Folder.rename, h]
  · intro f box env parent h
    simp [Folder.move, h]
  · intro f box env parent h
    simp [Folder.copy, h]

/-- Witness for C8: `File.Get` on a zero file (empty id) sends
nothing, keeps the receiver, and errors. -/
theorem empty_id_methods_no_request_witness :
    (File.get File.zero NewBox { reqErr := none, sendResult := .error "refused" }).sent = [] ∧
    (File.get File.zero NewBox { reqErr := none, sendResult := .error "refused" }).receiver =
      File.zero ∧
    (File.get File.zero NewBox { reqErr := none, sendResult := .error "refused" }).err =
      some "Empty id while using Get" :=
  empty_id_methods_no_request.1 File.zero NewBox
    { reqErr := none, sendResult := .error "refused" } rfl

/-- C4 counterexample: marshalling then unmarshalling a `BoxTime`
with a non-zero sub-second component does not return the original
value — `Format(time.RFC3339)` emits whole seconds only, so the
round trip truncates the time. -/
theorem boxtime_roundtrip_drops_subseconds :
    BoxTime.unmarshalJSON goZeroTime
        (some (BoxTime.marshalJSON { secs := 0, nanos := 1 })) ≠
      .ok { secs := 0, nanos := 1 } ∧
    BoxTime.unmarshalJSON goZeroTime
        (some (BoxTime.marshalJSON { secs := 0, nanos := 1 })) =
      .ok { secs := 0, nanos := 0 } :=
  ⟨by decide, by decide⟩

/-- C4 (amended): for every value of each resource struct —
`Entity`, `Permission`, `Collection`, `UploadEmail`, `BoxLock`,
`SharedObject`, `File`, `Folder`, and the `BoxTime` field type —
unmarshalling the JSON produced by marshalling the value yields the
original value, provided every `BoxTime` occurring in the value has a
whole-second instant (zero sub-second component); a `BoxTime` with a
sub-second component comes back truncated to whole seconds. -/
theorem resource_json_roundtrip :
    (∀ e : Entity, Entity.unmarshalInto Entity.zero (Entity.marshalJSON e) = .ok e) ∧
    (∀ p : Permission,
      Permission.unmarshalInto Permission.zero (Permission.marshalJSON p) = .ok p) ∧
    (∀ c : Collection,
      Collection.unmarshalInto Collection.zero (Collection.marshalJSON c) = .ok c) ∧
    (∀ u : UploadEmail,
      UploadEmail.unmarshalInto UploadEmail.zero (UploadEmail.marshalJSON u) = .ok u) ∧
    (∀ t : GoTime, t.nanos = 0 →
      BoxTime.unmarshalJSON goZeroTime (some (BoxTime.marshalJSON t)) = .ok t) ∧
    (∀ l : BoxLock, BoxLock.timesWhole l = true →
      BoxLock.unmarshalInto BoxLock.zero (BoxLock.marshalJSON l) = .ok l) ∧
    (∀ s : SharedObject, SharedObject.timesWhole s = true →
      SharedObject.unmarshalInto SharedObject.zero (SharedObject.marshalJSON s) = .ok s) ∧
    (∀ f : File, File.timesWhole f = true →
      File.unmarshalInto File.zero (File.marshalJSON f) = .ok f) ∧
    (∀ f : Folder, Folder.timesWhole f = true →
      Folder.unmarshalInto Folder.zero (Folder.marshalJSON f) = .ok f) :=
  ⟨entity_rt, permission_rt, collection_rt, uploadEmail_rt, boxtime_rt,
   boxlock_rt, sharedObject_rt, file_rt, folder_rt⟩

/-- Witness for C4: the round trip holds at a concrete populated
`File` (whole-second times throughout) and at a concrete whole-second
`BoxTime`. -/
theorem resource_json_roundtrip_witness :
    File.unmarshalInto File.zero (File.marshalJSON sampleFile) = .ok sampleFile ∧
    BoxTime.unmarshalJSON goZeroTime
        (some (BoxTime.marshalJSON { secs := 1700000000, nanos := 0 })) =
      .ok { secs := 1700000000, nanos := 0 } :=
  ⟨resource_json_roundtrip.2.2.2.2.2.2.2.1 sampleFile (by decide),
   resource_json_roundtrip.2.2.2.2.1 { secs := 1700000000, nanos := 0 } (by decide)⟩
